import Mathlib

/-!
# Verification of the Git-Analyzer change-analysis engine

Shallow embedding of the change-analysis engine of the Git-Analyzer
repository: the per-snapshot file classifier (`file_content_analyzer.js`),
the static code analyzer (`code_analyzer.js`) and the diff orchestration,
impact scoring and commit aggregation (`security.js`, `repository.js`).

JavaScript strings are modelled as Lean `String`, JavaScript numbers as
`Nat`/`Int` where the source only ever produces integers and as `Rat`
where fractional values occur.  The fractional constants 0.5, 1.5, 2, 3
are dyadic and therefore exact in both IEEE-754 doubles and `Rat`; the
0.1 comment-ratio threshold is compared against a quotient of line
counts, whose distance from 1/10 is at least `1/(10·codeLines)`, far
above the rounding error of the double division for any reachable line
count, so the `Rat` comparison decides identically.  The one place where
double rounding is observable is `k > n * 0.7` in the commit-pattern
thresholds: IEEE `n * fl(0.7)` falls below the exact `7n/10` at counts
such as n = 90, so that comparison is modelled by correctly rounded
binary64 arithmetic (`rne53num`, `gtMul07`) rather than by the exact
rational product.  `Math.round` (round half towards positive infinity on
the values reached here, all non-negative) is Mathlib's `round`.

JavaScript regular expressions are given semantics by a small backtracking
matcher (`RE`, `mrun`) that mirrors the JS engine: leftmost match,
greedy/lazy quantifiers by result ordering, capture groups, `^`/`$`
anchors, word boundaries, and the `lastIndex` iteration rule for global
regexes (an empty match advances the scan position by one).  The matcher
is fuel-indexed for termination; every use instantiates the fuel with a
bound exceeding the maximal backtracking depth for the given pattern and
input.
-/

set_option maxRecDepth 40000

namespace GitAnalyzer

/-- JS `\w` character test: ASCII letters, digits and underscore. -/
def isWordChar (c : Char) : Bool := c.isAlphanum || c == '_'

/-- Regular-expression syntax: the fragment used by the analyzer's
patterns.  `cls` is a single-character class given by its membership
predicate; `star`/`opt` carry a laziness flag; `group` is a numbered
capturing group; `bol`/`eol` are the `^`/`$` anchors and `wordB` is
`\b`. -/
inductive RE where
  | eps : RE
  | cls : (Char → Bool) → RE
  | seq : RE → RE → RE
  | alt : RE → RE → RE
  | star : RE → Bool → RE
  | opt : RE → Bool → RE
  | group : Nat → RE → RE
  | bol : RE
  | eol : RE
  | wordB : RE

/-- Structural size of a pattern, used to bound backtracking fuel. -/
def reSize : RE → Nat
  | .eps => 1
  | .cls _ => 1
  | .seq a b => reSize a + reSize b + 1
  | .alt a b => reSize a + reSize b + 1
  | .star a _ => reSize a + 1
  | .opt a _ => reSize a + 1
  | .group _ a => reSize a + 1
  | .bol => 1
  | .eol => 1
  | .wordB => 1

/-- Capture store: group index mapped to the matched span (start, stop);
the most recent assignment (front of the list) wins, as in JS. -/
abbrev Caps := List (Nat × Nat × Nat)

/-- The character just before `pos`, if any. -/
def charBefore (input : List Char) (pos : Nat) : Option Char :=
  if pos = 0 then none else input.get? (pos - 1)

/-- Backtracking matcher.  `mrun input ml fuel re pos caps` returns the
list of all (end-position, captures) pairs for matches of `re` starting
at `pos`, in JS priority order (greedy alternatives first unless the
quantifier is lazy); the head of the list is the match the JS engine
commits to.  `ml` is the multiline flag affecting `^`/`$`.  A star stops
iterating on an empty step, matching the JS engine's refusal of empty
quantified iterations. -/
def mrun (input : List Char) (ml : Bool) : Nat → RE → Nat → Caps → List (Nat × Caps)
  | 0, _, _, _ => []
  | Nat.succ fuel, re, pos, caps =>
    match re with
    | .eps => [(pos, caps)]
    | .cls p =>
      match input.get? pos with
      | some c => if p c then [(pos + 1, caps)] else []
      | none => []
    | .seq a b =>
      (mrun input ml fuel a pos caps).flatMap fun pc => mrun input ml fuel b pc.1 pc.2
    | .alt a b =>
      mrun input ml fuel a pos caps ++ mrun input ml fuel b pos caps
    | .star a lz =>
      let step := (mrun input ml fuel a pos caps).flatMap fun pc =>
        if pc.1 = pos then [] else mrun input ml fuel (.star a lz) pc.1 pc.2
      if lz then (pos, caps) :: step else step ++ [(pos, caps)]
    | .opt a lz =>
      if lz then (pos, caps) :: mrun input ml fuel a pos caps
      else mrun input ml fuel a pos caps ++ [(pos, caps)]
    | .group i a =>
      (mrun input ml fuel a pos caps).map fun pc => (pc.1, (i, pos, pc.1) :: pc.2)
    | .bol =>
      if pos = 0 then [(pos, caps)]
      else if ml && (charBefore input pos == some '\n') then [(pos, caps)] else []
    | .eol =>
      if pos = input.length then [(pos, caps)]
      else if ml && (input.get? pos == some '\n') then [(pos, caps)] else []
    | .wordB =>
      let wb : Option Char → Bool := fun o => match o with
        | some c => isWordChar c
        | none => false
      if wb (charBefore input pos) != wb (input.get? pos) then [(pos, caps)] else []

/-- Fuel sufficient for any backtracking path of `re` on `input`. -/
def fuelFor (input : List Char) (re : RE) : Nat :=
  (input.length + 2) * (reSize re + 2) + 4

/-- First (JS-committed) match of `re` anchored at `pos`. -/
def firstMatchAt (input : List Char) (ml : Bool) (re : RE) (pos : Nat) :
    Option (Nat × Caps) :=
  (mrun input ml (fuelFor input re) re pos []).head?

/-- One regex match: span `[mstart, mend)` plus captures. -/
structure RMatch where
  mstart : Nat
  mend : Nat
  caps : Caps
  deriving Repr, DecidableEq

/-- Scan successive start positions (at most `k` of them) for the
leftmost match, as the JS engine does for an unanchored pattern. -/
def searchAux (input : List Char) (ml : Bool) (re : RE) : Nat → Nat → Option RMatch
  | _, 0 => none
  | pos, Nat.succ k =>
    match firstMatchAt input ml re pos with
    | some pc => some ⟨pos, pc.1, pc.2⟩
    | none => searchAux input ml re (pos + 1) k

/-- Leftmost match of `re` in `input` at position `≥ pos`. -/
def searchFrom (input : List Char) (ml : Bool) (re : RE) (pos : Nat) : Option RMatch :=
  searchAux input ml re pos (input.length + 1 - pos)

/-- JS `re.test(s)` (also `s.match(re)` non-null-ness). -/
def reTest (re : RE) (s : String) : Bool :=
  (searchFrom s.data false re 0).isSome

/-- JS `re.test(s)` for a multiline (`/m`) pattern. -/
def reTestML (re : RE) (s : String) : Bool :=
  (searchFrom s.data true re 0).isSome

/-- The `lastIndex` loop behind `String.match(/g)`, `matchAll` and
repeated `exec`: collect matches left to right, restarting after each
match (one past it when the match is empty). -/
def execAllAux (input : List Char) (ml : Bool) (re : RE) : Nat → Nat → List RMatch
  | _, 0 => []
  | lastIndex, Nat.succ k =>
    match searchFrom input ml re lastIndex with
    | none => []
    | some m =>
      let nxt := if m.mend = m.mstart then m.mend + 1 else m.mend
      m :: execAllAux input ml re nxt k

/-- All matches of a global regex over `s`, in order. -/
def execAll (re : RE) (s : String) : List RMatch :=
  execAllAux s.data false re 0 (s.data.length + 2)

/-- All matches of a global multiline regex over `s`, in order. -/
def execAllML (re : RE) (s : String) : List RMatch :=
  execAllAux s.data true re 0 (s.data.length + 2)

/-- Number of matches of a global regex: `(s.match(re) || []).length`. -/
def countMatches (re : RE) (s : String) : Nat := (execAll re s).length

/-- Substring of `input` over the span `[b, e)`. -/
def sliceStr (input : List Char) (b e : Nat) : String :=
  String.mk ((input.drop b).take (e - b))

/-- JS `match[0]`: the full matched text. -/
def matchedStr (input : List Char) (m : RMatch) : String :=
  sliceStr input m.mstart m.mend

/-- JS `match[i]` for `i ≥ 1`: text of capture group `i`, or `undefined`
(`none`) when the group did not participate in the match. -/
def capStr (input : List Char) (m : RMatch) (i : Nat) : Option String :=
  ((m.caps.find? fun t => t.1 = i).map fun t => sliceStr input t.2.1 t.2.2)

/-! ## Pattern-building helpers -/

/-- Literal character. -/
def rchar (c : Char) : RE := .cls fun d => d == c

/-- Case-insensitive literal character (`/i` flag). -/
def rcharCI (c : Char) : RE := .cls fun d => d.toLower == c.toLower

/-- Literal string. -/
def rstr (s : String) : RE := s.data.foldr (fun c r => .seq (rchar c) r) .eps

/-- Case-insensitive literal string. -/
def rstrCI (s : String) : RE := s.data.foldr (fun c r => .seq (rcharCI c) r) .eps

/-- Sequencing of a pattern list. -/
def rseq (l : List RE) : RE := l.foldr .seq .eps

/-- Alternation of a pattern list (first alternative preferred). -/
def ralt : List RE → RE
  | [] => .cls fun _ => false
  | [r] => r
  | r :: rs => .alt r (ralt rs)

/-- `\s` (the analyzer's inputs only exercise ASCII whitespace). -/
def rws : RE := .cls Char.isWhitespace

/-- `\w`. -/
def rwd : RE := .cls isWordChar

/-- `\d`. -/
def rdg : RE := .cls Char.isDigit

/-- `.` without the dot-all flag. -/
def rdot : RE := .cls fun c => !(c == '\n' || c == '\r')

/-- `[\s\S]`: truly any character. -/
def rany : RE := .cls fun _ => true

/-- Negated character set `[^…]`. -/
def rnone (cs : List Char) : RE := .cls fun c => !(cs.contains c)

/-- Positive character set `[…]`. -/
def roneOf (cs : List Char) : RE := .cls fun c => cs.contains c

/-- Greedy `+`. -/
def rplus (r : RE) : RE := .seq r (.star r false)

/-- Greedy `*`. -/
def rstar (r : RE) : RE := .star r false

/-- Lazy `*?`. -/
def rstarL (r : RE) : RE := .star r true

/-- Lazy `+?`. -/
def rplusL (r : RE) : RE := .seq r (.star r true)

/-- Greedy `?`. -/
def ropt (r : RE) : RE := .opt r false

/-! ## JS string helpers

All of them recurse structurally over the character list so that the
kernel can evaluate them (several of the core `String` operations are
defined by well-founded recursion over byte positions and do not
reduce). -/

/-- Split worker: cut `l` at every non-overlapping occurrence of `sep`,
scanning left to right; `acc` holds the current segment reversed.  The
fuel is instantiated with more than the length of `l`, which the scan
consumes at least one character of per step. -/
def splitGo (sep : List Char) : Nat → List Char → List Char → List (List Char)
  | _, [], acc => [acc.reverse]
  | Nat.succ k, c :: rest, acc =>
    if sep.isPrefixOf (c :: rest) then
      acc.reverse :: splitGo sep k ((c :: rest).drop sep.length) []
    else
      splitGo sep k rest (c :: acc)
  | 0, l, acc => [acc.reverse ++ l]

/-- JS `s.split(sep)`: for an empty separator the character list, else
the segments between occurrences of `sep`. -/
def jsSplit (s sep : String) : List String :=
  if sep.isEmpty then s.data.map fun c => String.mk [c]
  else (splitGo sep.data (s.data.length + 1) s.data []).map String.mk

/-- JS `String.prototype.trim` (ASCII whitespace, which is all the
analyzer's inputs contain). -/
def jsTrim (s : String) : String :=
  String.mk (((s.data.dropWhile Char.isWhitespace).reverse.dropWhile
    Char.isWhitespace).reverse)

/-- JS `String.prototype.startsWith`. -/
def jsStartsWith (s p : String) : Bool :=
  p.data.isPrefixOf s.data

/-- JS `String.prototype.toLowerCase` (ASCII range). -/
def jsToLower (s : String) : String :=
  String.mk (s.data.map Char.toLower)

/-- JS `String.prototype.includes`. -/
def jsIncludes (s sub : String) : Bool :=
  sub.isEmpty || (jsSplit s sub).length ≥ 2

/-- Node `path.basename` (forward-slash separators, as the analyzer's
inputs use). -/
def jsBasename (p : String) : String :=
  match (jsSplit p "/").getLast? with
  | some b => b
  | none => ""

/-- Index (from the left) of the last `.` in `l`, if any. -/
def lastDotIdx (l : List Char) : Option Nat :=
  let rec go : List Char → Nat → Option Nat → Option Nat
    | [], _, acc => acc
    | c :: rest, i, acc => go rest (i + 1) (if c == '.' then some i else acc)
  go l 0 none

/-- Node `path.extname`: the final extension of the basename including
its dot; empty for dotless names and for a leading dot (hidden files). -/
def jsExtname (p : String) : String :=
  let b := (jsBasename p).data
  match lastDotIdx b with
  | some i => if i = 0 then "" else String.mk (b.drop i)
  | none => ""

/-- The scaled significand of the IEEE-754 double nearest 0.7:
`fl(0.7) = 6305039478318694 / 2^53` (0.7 is not dyadic, so the stored
double is strictly below 0.7). -/
def fl07num : Nat := 6305039478318694

/-- Number of halvings that bring `P` under `2^53`: the exponent shift
used when rounding `P / 2^53` to a 53-bit significand.  Fuel-indexed for
structural recursion; every use supplies fuel exceeding the bit length
of `P`. -/
def shift53 : Nat → Nat → Nat
  | 0, _ => 0
  | fuel + 1, P => if P < 2 ^ 53 then 0 else shift53 fuel (P / 2) + 1

/-- Round `P` to 53 significant bits, to nearest, ties to even: the
result is the scaled significand (over `2^53`) of the IEEE-754 double
nearest `P / 2^53`.  Faithful for every `P < 2^2101`, far beyond any
value a JS array length can produce (no overflow in that range). -/
def rne53num (P : Nat) : Nat :=
  let s := shift53 2048 P
  if s = 0 then P
  else
    let q0 := P / 2 ^ s
    let r := P % 2 ^ s
    let half := 2 ^ (s - 1)
    let m := if half < r then q0 + 1
      else if r < half then q0
      else if q0 % 2 = 0 then q0 else q0 + 1
    m * 2 ^ s

/-- JS `k > n * 0.7` under IEEE-754 binary64 semantics, for integer `k`
and `n` (both exact as doubles in the reachable range): compare `k`
against the correctly rounded product `n · fl(0.7)`, everything scaled
by `2^53`. -/
def gtMul07 (k n : Nat) : Bool :=
  rne53num (n * fl07num) < k * 2 ^ 53

/-- JS `Array.from(new Set(xs))`: deduplicate keeping first occurrences. -/
def jsDedup (xs : List String) : List String :=
  let rec go : List String → List String → List String
    | [], _ => []
    | x :: rest, seen => if seen.contains x then go rest seen else x :: go rest (x :: seen)
  go xs []

/-! ## `FileContentAnalyzer` (src/analysis/file_content_analyzer.js)

The per-snapshot content classifier: file type, purpose tags, structural
counts, dependency/export/function/class extraction, heuristic complexity
and characteristics. -/

namespace FCA

/-- Quote characters, for the `['"]` classes. -/
def quotes : List Char := ['\'', '"']

/-- `initializePatterns()`: the ordered (category, subtype, pattern list)
table evaluated first-match-wins by `detectFileType`.  Each entry
transcribes one JS regex literal. -/
def fileTypePatterns : List (String × List (String × List RE)) :=
  [ ("component",
     [ ("react",
        [ rseq [rstr "import", rplus rws, rstr "React"],
          rseq [rstr "extends", rplus rws, ropt (.group 1 (rstr "React.")), rstr "Component"],
          rseq [rstr "function", rplus rws, rplus rwd, rstar rws, rchar '(',
                rstar (rnone [')']), rchar ')', rstar rws, rchar '{', rstar rany,
                rstr "return", rstar rws, rchar '('],
          rseq [rstr "const", rplus rws, rplus rwd, rstar rws, rchar '=', rstar rws,
                rchar '(', rstar (rnone [')']), rchar ')', rstar rws, rstr "=>",
                rstar rws, rstar rany, rstr "return", rstar rws, rchar '('],
          rseq [rstr "export", rplus rws, rstr "default", rplus rws, rstr "function",
                rplus rws, rplus rwd] ]),
       ("vue",
        [ rstr "<template>",
          rstr "<script>",
          rseq [rstr "export", rplus rws, rstr "default", rstar rws, rchar '{',
                rstar rany, rstr "data", rstar rws, rstr "()"],
          rstr "Vue.component" ]),
       ("angular",
        [ rseq [rstr "@Component", rstar rws, rchar '('],
          rseq [rstr "@Injectable", rstar rws, rchar '('],
          rseq [rstr "@NgModule", rstar rws, rchar '('],
          rseq [rstr "import", rstar rws, rchar '{', rstar rws, rstr "Component",
                rstar rws, rchar '}', rstar rws, rstr "from", rstar rws,
                roneOf quotes, rstr "@angular"] ]) ]),
    ("api",
     [ ("rest",
        [ rseq [rstr "app.", .group 1 (ralt [rstr "get", rstr "post", rstr "put",
                rstr "delete", rstr "patch"]), rstar rws, rchar '('],
          rseq [rstr "router.", .group 1 (ralt [rstr "get", rstr "post", rstr "put",
                rstr "delete", rstr "patch"]), rstar rws, rchar '('],
          rstr "express()",
          rseq [rchar '@', .group 1 (ralt [rstr "Get", rstr "Post", rstr "Put",
                rstr "Delete", rstr "Patch"]), rstr "Mapping"],
          rstr "@RestController" ]),
       ("graphql",
        [ rseq [rstr "type", rplus rws, rstr "Query", rstar rws, rchar '{'],
          rseq [rstr "type", rplus rws, rstr "Mutation", rstar rws, rchar '{'],
          rstr "GraphQLSchema",
          rstr "buildSchema(",
          rstr "@Resolver" ]) ]),
    ("database",
     [ ("model",
        [ rstr "mongoose.Schema",
          rstr "sequelize.define",
          rseq [rstr "@Entity", rstar rws, rchar '('],
          rseq [rstr "class", rplus rws, rplus rwd, rplus rws, rstr "extends",
                rplus rws, rstr "Model"],
          rseq [rstrCI "CREATE", rplus rws, rstrCI "TABLE"] ]),
       ("migration",
        [ rseq [rstr "exports.up", rstar rws, rchar '='],
          rseq [rstr "exports.down", rstar rws, rchar '='],
          rseq [rstr "class", rplus rws, rplus rwd, rstr "Migration"],
          rseq [rstr "def", rplus rws, rstr "up", rstar rws, rchar '('],
          rseq [rstr "def", rplus rws, rstr "down", rstar rws, rchar '('] ]) ]),
    ("test",
     [ ("unit",
        [ rseq [rstr "describe", rstar rws, rchar '('],
          rseq [rstr "it", rstar rws, rchar '('],
          rseq [rstr "test", rstar rws, rchar '('],
          rseq [rstr "expect", rstar rws, rchar '('],
          rstr "@Test",
          rstr "assert" ]),
       ("integration",
        [ rstr "supertest",
          rstr "request(app)",
          rstr "@SpringBootTest",
          rstr "TestBed.configureTestingModule" ]) ]),
    ("config",
     [ ("build",
        [ rstr "webpack.config",
          rstr "rollup.config",
          rstr "vite.config",
          rstr "tsconfig.json",
          rstr "babel.config" ]),
       ("environment",
        [ rstr ".env",
          rseq [rstr "config.", .group 1 (ralt [rstr "js", rstr "ts", rstr "json"]), .eol],
          rseq [rstr "settings.", .group 1 (ralt [rstr "py", rstr "js", rstr "ts"]), .eol] ]) ]),
    ("style",
     [ ("css",
        [ rseq [rstr ".css", .eol],
          rseq [rstr ".scss", .eol],
          rseq [rstr ".sass", .eol],
          rseq [rstr ".less", .eol],
          rstr "styled-components",
          rstr "@emotion" ]) ]),
    ("documentation",
     [ ("markdown",
        [ rseq [rstr ".md", .eol],
          rstr "README",
          rstr "CHANGELOG",
          rstr "CONTRIBUTING" ]),
       ("jsdoc",
        [ rseq [rstr "/**", rstar rany, rstr "@param"],
          rseq [rstr "/**", rstar rany, rstr "@returns"],
          rseq [rstr "/**", rstar rany, rstr "@description"] ]) ]) ]

/-- First subtype of one category whose pattern list has a match. -/
def firstSubtype (content : String) : List (String × List RE) → Option String
  | [] => none
  | (t, pats) :: rest =>
    if pats.any fun p => reTest p content then some t else firstSubtype content rest

/-- First `"{category}-{subtype}"` tag over the whole table. -/
def firstTypeTag (content : String) : List (String × List (String × List RE)) → Option String
  | [] => none
  | (cat, types) :: rest =>
    match firstSubtype content types with
    | some t => some (cat ++ "-" ++ t)
    | none => firstTypeTag content rest

/-- Extension fallback map of `detectFileType`. -/
def extTypeMap : List (String × String) :=
  [ (".js", "javascript"), (".jsx", "react-component"), (".ts", "typescript"),
    (".tsx", "react-component"), (".vue", "vue-component"), (".py", "python"),
    (".java", "java"), (".go", "go"), (".rs", "rust"), (".rb", "ruby"),
    (".php", "php") ]

/-- `detectFileType(filePath, content)`: filename rules first, then the
content-pattern table, then the extension map, else `"unknown"`. -/
def detectFileType (filePath content : String) : String :=
  let fileName := jsBasename filePath
  let ext := jsExtname filePath
  if reTest (ralt [rstr "test.", rstr "spec.", rstr ".test.", rstr ".spec."]) fileName then
    "test"
  else if reTest (ralt [rstr "config", rstr "settings", rstr "setup"]) fileName then
    "configuration"
  else if reTest (rseq [rstr "index.", ralt [rstr "js", rstr "ts", rstr "jsx", rstr "tsx"], .eol]) fileName then
    "entry-point"
  else if reTest (rseq [rchar '.', .group 1 (ralt [rstr "css", rstr "scss", rstr "sass", rstr "less"]), .eol]) fileName then
    "stylesheet"
  else if reTest (rseq [rchar '.', .group 1 (ralt [rstr "md", rstr "markdown", rstr "txt", rstr "rst"]), .eol]) fileName then
    "documentation"
  else
    match firstTypeTag content fileTypePatterns with
    | some tag => tag
    | none =>
      match (extTypeMap.find? fun e => e.1 == ext) with
      | some e => e.2
      | none => "unknown"

/-- `detectFilePurpose(filePath, content)`: path-segment conventions then
content signatures; non-empty via the generic fallback tag. -/
def detectFilePurpose (filePath content : String) : List String :=
  let seg : List RE → RE := fun alts => rseq [rchar '/', .group 1 (ralt alts), rchar '/']
  let p1 := if reTest (seg [rstr "api", rstr "routes", rstr "controllers"]) filePath then
    ["APIエンドポイント"] else []
  let p2 := if reTest (seg [rstr "components", rstr "views", rstr "pages"]) filePath then
    ["UIコンポーネント"] else []
  let p3 := if reTest (seg [rstr "models", rstr "entities", rstr "schemas"]) filePath then
    ["データモデル"] else []
  let p4 := if reTest (seg [rstr "services", rstr "handlers",
      rseq [rstr "use", ropt (rchar '-'), rstr "cases"]]) filePath then
    ["ビジネスロジック"] else []
  let p5 := if reTest (seg [rstr "utils", rstr "helpers", rstr "lib"]) filePath then
    ["ユーティリティ"] else []
  let p6 := if reTest (seg [rstr "middleware", rstr "interceptors", rstr "filters"]) filePath then
    ["ミドルウェア"] else []
  let c1 := if reTest (rseq [rstr "export", rplus rws, rstr "default", rplus rws,
      rstr "class", rstar rdot, rstr "extends", rstar rdot, rstr "Component"]) content then
    ["Reactコンポーネント"] else []
  let c2 := if reTest (rseq [rstr "app.", .group 1 (ralt [rstr "get", rstr "post",
      rstr "put", rstr "delete"]), rchar '(']) content then
    ["RESTful API"] else []
  let c3 := if reTest (ralt [rseq [rstr "async", rplus rws, rstr "function",
      rstar rdot, rstr "fetch"], rstr "axios", rstr "fetch("]) content then
    ["API通信"] else []
  let c4 := if reTest (ralt [rstr "mongoose.Schema", rstr "sequelize.define"]) content then
    ["データベースモデル"] else []
  let purposes := p1 ++ p2 ++ p3 ++ p4 ++ p5 ++ p6 ++ c1 ++ c2 ++ c3 ++ c4
  if purposes.length > 0 then purposes else ["汎用モジュール"]

/-- Per-file structural counts (`analyzeStructure`); `lines` is the
split-line count (at least 1 for any string). -/
structure FCStructure where
  lines : Nat
  imports : Nat
  exports : Nat
  functions : Nat
  classes : Nat
  interfaces : Nat
  comments : Nat
  emptyLines : Nat
  deriving Repr, DecidableEq

/-- `analyzeStructure(content, language)`: one linear pass; each line is
tested independently against the per-line patterns (a line may bump
several counters). -/
def analyzeStructure (content : String) : FCStructure :=
  let lines := jsSplit content "\n"
  let count : (String → Bool) → Nat := fun p => (lines.filter fun l => p (jsTrim l)).length
  { lines := lines.length
    emptyLines := count fun t => t == ""
    comments := count fun t =>
      jsStartsWith t "//" || jsStartsWith t "/*" || jsStartsWith t "*"
    imports := count fun t =>
      reTest (rseq [.bol, rstr "import", rws]) t ||
      reTest (rseq [.bol, rstr "const", rstar rdot, rstr "require("]) t
    exports := count fun t => reTest (rseq [.bol, rstr "export", rws]) t
    functions := count fun t =>
      reTest (rseq [.bol, ropt (.group 1 (rseq [rstr "async", rplus rws])),
        rstr "function", rws]) t ||
      reTest (rseq [.bol, rstr "const", rplus rws, rplus rwd, rstar rws, rchar '=',
        rstar rws, ropt (.group 1 (rseq [rstr "async", rstar rws])), rchar '(']) t
    classes := count fun t => reTest (rseq [.bol, rstr "class", rws]) t
    interfaces := count fun t =>
      reTest (rseq [.bol, rstr "interface", rws]) t ||
      reTest (rseq [.bol, rstr "type", rws]) t }

/-- `importRegex`: `/import\s+(?:[\s\S]*?from\s+)?['"]([^'"]+)['"]/g`. -/
def importRegex : RE :=
  rseq [rstr "import", rplus rws,
    .opt (rseq [rstarL rany, rstr "from", rplus rws]) false,
    roneOf quotes, .group 1 (rplus (rnone quotes)), roneOf quotes]

/-- `requireRegex`: `/require\s*\(['"]([^'"]+)['"]\)/g`. -/
def requireRegex : RE :=
  rseq [rstr "require", rstar rws, rchar '(',
    roneOf quotes, .group 1 (rplus (rnone quotes)), roneOf quotes, rchar ')']

/-- `/^(?:from\s+(\S+)\s+)?import\s+/gm` (Python imports). -/
def pythonImportRegex : RE :=
  rseq [.bol, ropt (rseq [rstr "from", rplus rws,
    .group 1 (rplus (.cls fun c => !c.isWhitespace)), rplus rws]),
    rstr "import", rplus rws]

/-- `extractDependencies(content, language)`: JS `import`/`require`
specifiers that are not relative (plus `from X import` modules for
Python), deduplicated keeping first occurrences. -/
def extractDependencies (content language : String) : List String :=
  let fromCap : List RMatch → List String := fun ms =>
    ms.filterMap fun m => capStr content.data m 1
  let js := (fromCap (execAll importRegex content) ++
             fromCap (execAll requireRegex content)).filter fun d =>
    !(jsStartsWith d ".")
  let py := if language == "python" then
    fromCap (execAllML pythonImportRegex content)
  else []
  jsDedup (js ++ py)

/-- One export record (`{type, name}`). -/
structure ExportInfo where
  etype : String
  name : String
  deriving Repr, DecidableEq

/-- `extractExports(content, language)`: the default export, named
declaration exports, and re-export lists. -/
def extractExports (content : String) : List ExportInfo :=
  let defaultRe := rseq [rstr "export", rplus rws, rstr "default", rplus rws,
    .group 1 (rplus rwd)]
  let defaults := match searchFrom content.data false defaultRe 0 with
    | some m =>
      match capStr content.data m 1 with
      | some n => [ExportInfo.mk "default" n]
      | none => []
    | none => []
  let namedRe := rseq [rstr "export", rplus rws,
    ralt [rstr "const", rstr "let", rstr "var", rstr "function", rstr "class"],
    rplus rws, .group 1 (rplus rwd)]
  let named := (execAll namedRe content).filterMap fun m =>
    (capStr content.data m 1).map fun n => ExportInfo.mk "named" n
  let reexportRe := rseq [rstr "export", rstar rws, rchar '{', rstar rws,
    .group 1 (rplus (rnone ['}'])), rstar rws, rchar '}', rstar rws, rstr "from"]
  let reexports := (execAll reexportRe content).flatMap fun m =>
    match capStr content.data m 1 with
    | some names => (jsSplit names ",").map fun n => ExportInfo.mk "reexport" n.trim
    | none => []
  defaults ++ named ++ reexports

/-- One extracted function (`{name, params, async, arrow?, method?}`). -/
structure FunctionInfo where
  name : String
  params : List String
  isAsync : Bool
  arrow : Bool
  method : Bool
  deriving Repr, DecidableEq

/-- `params.split(',').map(trim).filter(nonempty)`. -/
def splitParams (p : String) : List String :=
  ((jsSplit p ",").map String.trim).filter fun s => s ≠ ""

/-- `extractFunctions(content, language)`: function declarations, arrow
bindings, and method-like bindings (the latter excluding a fixed keyword
list that the pattern would otherwise capture). -/
def extractFunctions (content : String) : List FunctionInfo :=
  let inp := content.data
  let funcDeclRe := rseq [ropt (rseq [rstr "async", rplus rws]), rstr "function",
    rplus rws, .group 1 (rplus rwd), rstar rws, rchar '(',
    .group 2 (rstar (rnone [')'])), rchar ')']
  let decls := (execAll funcDeclRe content).filterMap fun m =>
    (capStr inp m 1).map fun n =>
      FunctionInfo.mk n (splitParams ((capStr inp m 2).getD ""))
        (jsIncludes (matchedStr inp m) "async") false false
  let arrowRe := rseq [ralt [rstr "const", rstr "let", rstr "var"], rplus rws,
    .group 1 (rplus rwd), rstar rws, rchar '=', rstar rws,
    ropt (rseq [rstr "async", rstar rws]), rchar '(',
    .group 2 (rstar (rnone [')'])), rchar ')', rstar rws, rstr "=>"]
  let arrows := (execAll arrowRe content).filterMap fun m =>
    (capStr inp m 1).map fun n =>
      FunctionInfo.mk n (splitParams ((capStr inp m 2).getD ""))
        (jsIncludes (matchedStr inp m) "async") true false
  let methodRe := rseq [ropt (rseq [rstr "async", rplus rws]),
    .group 1 (rplus rwd), rstar rws, rchar '(',
    .group 2 (rstar (rnone [')'])), rchar ')', rstar rws, rchar '{']
  let excluded : List String := ["function", "if", "for", "while", "switch", "catch"]
  let methods := (execAll methodRe content).filterMap fun m =>
    (capStr inp m 1).bind fun n =>
      if excluded.contains n then none
      else some (FunctionInfo.mk n (splitParams ((capStr inp m 2).getD ""))
        (jsIncludes (matchedStr inp m) "async") false true)
  decls ++ arrows ++ methods

/-- One extracted class (`{name, extends}`). -/
structure ClassInfo where
  name : String
  extendsName : Option String
  deriving Repr, DecidableEq

/-- `extractClasses`: `/class\s+(\w+)(?:\s+extends\s+(\w+))?\s*{/g`. -/
def extractClasses (content : String) : List ClassInfo :=
  let classRe := rseq [rstr "class", rplus rws, .group 1 (rplus rwd),
    ropt (rseq [rplus rws, rstr "extends", rplus rws, .group 2 (rplus rwd)]),
    rstar rws, rchar '{']
  (execAll classRe content).filterMap fun m =>
    (capStr content.data m 1).map fun n => ClassInfo.mk n (capStr content.data m 2)

/-- `calculateComplexity(content)`: 1 plus one per occurrence of each
decision-point pattern. -/
def calculateComplexity (content : String) : Nat :=
  let pats : List RE :=
    [ rseq [rstr "if", rstar rws, rchar '('],
      rseq [rstr "else", rplus rws, rstr "if", rstar rws, rchar '('],
      rseq [rstr "for", rstar rws, rchar '('],
      rseq [rstr "while", rstar rws, rchar '('],
      rseq [rstr "do", rstar rws, rchar '{'],
      rseq [rstr "switch", rstar rws, rchar '('],
      rseq [rstr "case", rplus rws],
      rseq [rstr "catch", rstar rws, rchar '('],
      rseq [rchar '?', rstar rws, rplus (rnone [':']), rstar rws, rchar ':'],
      rstr "&&",
      rstr "||" ]
  1 + (pats.map fun p => countMatches p content).sum

/-- `detectCharacteristics(content, language)`: independent presence
checks mapped to the closed tag vocabulary. -/
def detectCharacteristics (content : String) : List String :=
  let hit : List RE → Bool := fun alts => reTest (ralt alts) content
  let t1 := if hit [rstr "async", rstr "await", rstr "Promise", rstr "then("] then
    ["非同期処理"] else []
  let t2 := if hit [rseq [rstr "try", rstar rws, rchar '{'],
      rseq [rstr "catch", rstar rws, rchar '('],
      rseq [rstr "throw", rplus rws]] then ["エラーハンドリング"] else []
  let t3 := if hit [rstr "useState", rstr "setState", rstr "redux", rstr "vuex",
      rstr "mobx"] then ["状態管理"] else []
  let t4 := if hit [rstr "fetch(", rstr "axios", rstr "http.request", rstr "ajax"] then
    ["API通信"] else []
  let t5 := if hit [rstr "addEventListener", rstr "onClick", rstr "onChange",
      rstr "onSubmit", rstr "emit("] then ["イベント処理"] else []
  let t6 := if hit [rstr "SELECT", rstr "INSERT", rstr "UPDATE", rstr "DELETE",
      rstr "find(", rstr "save(", rstr "create(", rstr "update("] then
    ["データベース操作"] else []
  let t7 := if hit [rstr "auth", rstr "token", rstr "jwt", rstr "session",
      rstr "login", rstr "logout", rstr "password"] then ["認証・認可"] else []
  let t8 := if hit [rstr "validate", rstr "validator", rstr "schema.validate",
      rstr "yup", rstr "joi"] then ["バリデーション"] else []
  let t9 := if hit [rstr "cache", rstr "redis", rstr "memcached",
      rstr "localStorage", rstr "sessionStorage"] then ["キャッシュ処理"] else []
  let t10 := if hit [rstr "console.log", rstr "logger", rstr "winston",
      rstr "morgan", rstr "debug"] then ["ログ出力"] else []
  t1 ++ t2 ++ t3 ++ t4 ++ t5 ++ t6 ++ t7 ++ t8 ++ t9 ++ t10

/-- The full `FileSnapshotAnalysis` record produced by
`analyzeFileContent` (`type` and `structure` are Lean keywords, hence
`ftype` and `struct`). -/
structure FileAnalysis where
  path : String
  language : String
  ftype : String
  purpose : List String
  struct : FCStructure
  dependencies : List String
  exports : List ExportInfo
  functions : List FunctionInfo
  classes : List ClassInfo
  complexity : Nat
  characteristics : List String
  description : String
  deriving Repr, DecidableEq

/-- `generateFileDescription(analysis)`: template assembly, including the
refactor suggestion when complexity exceeds 10. -/
def generateFileDescription (a : FileAnalysis) : String :=
  let d := "このファイルは" ++ String.intercalate "、" a.purpose ++ "として機能する" ++
    a.ftype ++ "ファイルです。"
  let d := if a.struct.classes > 0 then d ++ toString a.struct.classes ++ "個のクラス" else d
  let d := if a.struct.functions > 0 then
    d ++ (if d ≠ "" then "、" else "") ++ toString a.struct.functions ++ "個の関数"
  else d
  let d := if a.struct.imports > 0 then
    d ++ "を含み、" ++ toString a.struct.imports ++ "個の依存関係があります。"
  else d ++ "を含んでいます。"
  let d := if a.exports.length > 0 then
    match a.exports.find? fun e => e.etype == "default" with
    | some e => d ++ "主要なエクスポートは" ++ e.name ++ "です。"
    | none => d
  else d
  let d := if a.characteristics.length > 0 then
    d ++ "主な特徴: " ++ String.intercalate "、" a.characteristics ++ "。"
  else d
  if a.complexity > 10 then
    d ++ "複雑度が高い(" ++ toString a.complexity ++ ")ため、リファクタリングを検討してください。"
  else d

/-- `analyzeFileContent(filePath, content, language)`: assembles the full
snapshot analysis, then attaches the generated description. -/
def analyzeFileContent (filePath content language : String) : FileAnalysis :=
  let ftype := detectFileType filePath content
  let purpose := detectFilePurpose filePath content
  let struct := analyzeStructure content
  let dependencies := extractDependencies content language
  let exports := extractExports content
  let functions := extractFunctions content
  let classes := extractClasses content
  let complexity := calculateComplexity content
  let characteristics := detectCharacteristics content
  let a : FileAnalysis :=
    { path := filePath
      language := language
      ftype := ftype
      purpose := purpose
      struct := struct
      dependencies := dependencies
      exports := exports
      functions := functions
      classes := classes
      complexity := complexity
      characteristics := characteristics
      description := "" }
  { a with description := generateFileDescription a }

end FCA

/-! ## `CodeAnalyzer` (src/analysis/code_analyzer.js)

The static analyzer: line metrics, complexity measures, per-language
structure extraction, issue detection and the quality score/grade. -/

namespace CA

/-- Line metrics (`calculateMetrics`). -/
structure CAMetrics where
  totalLines : Nat
  codeLines : Nat
  emptyLines : Nat
  commentLines : Nat
  averageLineLength : Int
  longestLine : Nat
  deriving Repr, DecidableEq

/-- `calculateAverageLineLength(lines)`: rounded mean length of the
non-empty lines, 0 when there are none. -/
def calculateAverageLineLength (lines : List String) : Int :=
  let nonEmpty := lines.filter fun l => (jsTrim l).length > 0
  if nonEmpty.length = 0 then 0
  else round (((nonEmpty.map String.length).sum : ℚ) / (nonEmpty.length : ℚ))

/-- `calculateMetrics(content)`. -/
def calculateMetrics (content : String) : CAMetrics :=
  let lines := jsSplit content "\n"
  let nonEmpty := lines.filter fun l => (jsTrim l).length > 0
  let code := nonEmpty.filter fun l =>
    !(jsStartsWith (jsTrim l) "//") && !(jsStartsWith (jsTrim l) "#") &&
    !(jsStartsWith (jsTrim l) "*")
  { totalLines := lines.length
    codeLines := code.length
    emptyLines := lines.length - nonEmpty.length
    commentLines := nonEmpty.length - code.length
    averageLineLength := calculateAverageLineLength lines
    longestLine := (lines.map String.length).foldl max 0 }

/-- `calculateMaxNesting(content)`: running bracket depth, floored at 0,
maximised over the character stream. -/
def maxNestingAux : List Char → Nat → Nat → Nat
  | [], _, mx => mx
  | c :: rest, cur, mx =>
    if c == '{' || c == '(' || c == '[' then
      maxNestingAux rest (cur + 1) (max mx (cur + 1))
    else if c == '}' || c == ')' || c == ']' then
      maxNestingAux rest (cur - 1) mx
    else maxNestingAux rest cur mx

/-- `calculateMaxNesting(content)`. -/
def calculateMaxNesting (content : String) : Nat :=
  maxNestingAux content.data 0 0

/-- `/\b(if|else if|for|while|do|switch)\b/`. -/
def cognitiveKeywordRe : RE :=
  rseq [.wordB, .group 1 (ralt [rstr "if", rstr "else if", rstr "for",
    rstr "while", rstr "do", rstr "switch"]), .wordB]

/-- One line's contribution inside `calculateCognitiveComplexity`: the
brace-open check precedes the keyword checks, the brace-close check
follows them.  State is (accumulated complexity, nesting level). -/
def cognitiveLineStep (st : Nat × Nat) (line : String) : Nat × Nat :=
  let t := jsTrim line
  let nl := if jsIncludes t "\x7b" then st.2 + 1 else st.2
  let c := st.1
  let c := if reTest cognitiveKeywordRe t then c + 1 + nl else c
  let c := if reTest (rseq [.wordB, rstr "catch", .wordB]) t then c + 1 else c
  let c := if reTest (ralt [rseq [.wordB, rstr "break", .wordB],
      rseq [.wordB, rstr "continue", .wordB]]) t then c + 1 else c
  let c := c + countMatches (ralt [rstr "&&", rstr "||"]) t
  let nl := if jsIncludes t "\x7d" then nl - 1 else nl
  (c, nl)

/-- `calculateCognitiveComplexity(content)`. -/
def calculateCognitiveComplexity (content : String) : Nat :=
  ((jsSplit content "\n").foldl cognitiveLineStep (0, 0)).1

/-- Operator tokens
(`/\+\+|--|==|!=|<=|>=|&&|\|\||<<|>>|[+\-*\/%=<>!&|^~]/g`). -/
def operatorRe : RE :=
  ralt [rstr "++", rstr "--", rstr "==", rstr "!=", rstr "<=", rstr ">=",
    rstr "&&", rstr "||", rstr "<<", rstr ">>",
    roneOf ['+', '-', '*', '/', '%', '=', '<', '>', '!', '&', '|', '^', '~']]

/-- `extractOperators(content, language)`: the matched operator texts. -/
def extractOperators (content : String) : List String :=
  (execAll operatorRe content).map fun m => matchedStr content.data m

/-- `extractOperands(content, language)`: identifiers, numbers, then
string literals (quote, apostrophe or backquote delimited). -/
def extractOperands (content : String) : List String :=
  let identRe := rseq [.wordB, .cls (fun c => c.isAlpha || c == '_'), rstar rwd, .wordB]
  let numRe := rseq [.wordB, rplus rdg, ropt (.group 1 (rseq [rchar '.', rplus rdg])), .wordB]
  let q : Char → Bool := fun c => c == '"' || c == '\'' || c.toNat == 96
  let strRe := rseq [.cls q, rstarL rdot, .cls q]
  ((execAll identRe content).map fun m => matchedStr content.data m) ++
  ((execAll numRe content).map fun m => matchedStr content.data m) ++
  ((execAll strRe content).map fun m => matchedStr content.data m)

/-- Halstead-style counts (`calculateHalsteadMetrics`).  The derived
`volume`, `difficulty` and `effort` fields are IEEE-754 values built from
`Math.log2` and are touched by no claim; the exact integer ingredients
are kept. -/
structure Halstead where
  vocabulary : Nat
  length : Nat
  deriving Repr, DecidableEq

/-- `calculateHalsteadMetrics(content, language)` (exact part). -/
def calculateHalsteadMetrics (content : String) : Halstead :=
  let ops := extractOperators content
  let opnds := extractOperands content
  { vocabulary := (jsDedup ops).length + (jsDedup opnds).length
    length := ops.length + opnds.length }

/-- Complexity record (`calculateComplexity`). -/
structure CAComplexity where
  cyclomatic : Nat
  cognitive : Nat
  nesting : Nat
  halstead : Halstead
  deriving Repr, DecidableEq

/-- The control-flow patterns summed into the cyclomatic count. -/
def controlFlowPatterns : List RE :=
  [ rseq [.wordB, rstr "if", .wordB],
    rseq [.wordB, rstr "else", rplus rws, rstr "if", .wordB],
    rseq [.wordB, rstr "for", .wordB],
    rseq [.wordB, rstr "while", .wordB],
    rseq [.wordB, rstr "do", .wordB],
    rseq [.wordB, rstr "switch", .wordB],
    rseq [.wordB, rstr "case", .wordB],
    rseq [.wordB, rstr "catch", .wordB],
    rseq [rchar '?', rstar rws, rstar rdot, rstar rws, rchar ':'] ]

/-- `calculateComplexity(content, language)`: cyclomatic baseline 1 plus
control-flow and logical-operator occurrences; cognitive, nesting and
Halstead as above. -/
def calculateComplexity (content : String) : CAComplexity :=
  { cyclomatic := 1 + (controlFlowPatterns.map fun p => countMatches p content).sum +
      countMatches (ralt [rstr "&&", rstr "||"]) content
    cognitive := calculateCognitiveComplexity content
    nesting := calculateMaxNesting content
    halstead := calculateHalsteadMetrics content }

/-- Extracted name lists (`analyzeStructure`). -/
structure CAStructure where
  functions : List String
  classes : List String
  imports : List String
  exports : List String
  interfaces : List String
  types : List String
  deriving Repr, DecidableEq

/-- JS `m[1] || m[2] || … ` followed by `.filter(Boolean)`: the first
captured, non-empty group text, if any. -/
def firstTruthy : List (Option String) → Option String
  | [] => none
  | some s :: rest => if s ≠ "" then some s else firstTruthy rest
  | none :: rest => firstTruthy rest

/-- Language pattern rows of `initializeLanguagePatterns` that
`analyzeStructure` reads (each with the capture groups it projects;
`comments`, `decorators` and `annotations` rows exist in the source table
but are never read). -/
structure LangPatterns where
  functions : Option (RE × Nat)
  classes : Option (RE × Nat)
  imports : Option (RE × Nat)
  exports : Option (RE × Nat)
  interfaces : Option (RE × Nat)
  types : Option (RE × Nat)

/-- JS/TS `functions` pattern:
`function\s+(\w+)|const\s+(\w+)\s*=\s*(?:async\s*)?\(.*?\)\s*=>|(\w+)\s*:\s*(?:async\s*)?\(.*?\)\s*=>`. -/
def jsFunctionsRe : RE :=
  ralt [ rseq [rstr "function", rplus rws, .group 1 (rplus rwd)],
    rseq [rstr "const", rplus rws, .group 2 (rplus rwd), rstar rws, rchar '=',
      rstar rws, ropt (rseq [rstr "async", rstar rws]), rchar '(', rstarL rdot,
      rchar ')', rstar rws, rstr "=>"],
    rseq [.group 3 (rplus rwd), rstar rws, rchar ':', rstar rws,
      ropt (rseq [rstr "async", rstar rws]), rchar '(', rstarL rdot, rchar ')',
      rstar rws, rstr "=>"] ]

/-- `import\s+.*?from\s+['"](.+?)['"]`. -/
def jsImportsRe : RE :=
  rseq [rstr "import", rplus rws, rstarL rdot, rstr "from", rplus rws,
    roneOf FCA.quotes, .group 1 (rplusL rdot), roneOf FCA.quotes]

/-- `export\s+(?:default\s+)?(?:class|function|const|let|var…)\s+(\w+)`
with `kinds` the declaration keywords of the language row. -/
def exportsRe (kinds : List String) : RE :=
  rseq [rstr "export", rplus rws, ropt (rseq [rstr "default", rplus rws]),
    ralt (kinds.map rstr), rplus rws, .group 1 (rplus rwd)]

/-- The `javascript` row. -/
def javascriptPatterns : LangPatterns :=
  { functions := some (jsFunctionsRe, 3)
    classes := some (rseq [rstr "class", rplus rws, .group 1 (rplus rwd)], 1)
    imports := some (jsImportsRe, 1)
    exports := some (exportsRe ["class", "function", "const", "let", "var"], 1)
    interfaces := none
    types := none }

/-- The `typescript` row. -/
def typescriptPatterns : LangPatterns :=
  { javascriptPatterns with
    interfaces := some (rseq [rstr "interface", rplus rws, .group 1 (rplus rwd)], 1)
    types := some (rseq [rstr "type", rplus rws, .group 1 (rplus rwd)], 1)
    exports := some (exportsRe ["class", "function", "const", "let", "var",
      "interface", "type"], 1) }

/-- The `python` row (`import\s+(\w+)|from\s+(\w+)\s+import` for
imports). -/
def pythonPatterns : LangPatterns :=
  { functions := some (rseq [rstr "def", rplus rws, .group 1 (rplus rwd), rstar rws,
      rchar '('], 1)
    classes := some (rseq [rstr "class", rplus rws, .group 1 (rplus rwd)], 1)
    imports := some (ralt [rseq [rstr "import", rplus rws, .group 1 (rplus rwd)],
      rseq [rstr "from", rplus rws, .group 2 (rplus rwd), rplus rws, rstr "import"]], 2)
    exports := none
    interfaces := none
    types := none }

/-- The `java` row (functions:
`(?:public|private|protected|static|\s)+[\w<>\[\]]+\s+(\w+)\s*\([^)]*\)\s*(?:throws\s+\w+(?:\s*,\s*\w+)*)?\s*\{`). -/
def javaPatterns : LangPatterns :=
  { functions := some (rseq [
      rplus (ralt [rstr "public", rstr "private", rstr "protected", rstr "static", rws]),
      rplus (.cls fun c => isWordChar c || c == '<' || c == '>' || c == '[' || c == ']'),
      rplus rws, .group 1 (rplus rwd), rstar rws, rchar '(', rstar (rnone [')']),
      rchar ')', rstar rws,
      ropt (rseq [rstr "throws", rplus rws, rplus rwd,
        rstar (rseq [rstar rws, rchar ',', rstar rws, rplus rwd])]),
      rstar rws, rchar '{'], 1)
    classes := some (rseq [rstr "class", rplus rws, .group 1 (rplus rwd)], 1)
    imports := some (rseq [rstr "import", rplus rws,
      .group 1 (rplus (.cls fun c => isWordChar c || c == '.')), rchar ';'], 1)
    exports := none
    interfaces := some (rseq [rstr "interface", rplus rws, .group 1 (rplus rwd)], 1)
    types := none }

/-- `this.languagePatterns[language] || this.languagePatterns.javascript`. -/
def patternsFor (language : String) : LangPatterns :=
  if language == "javascript" then javascriptPatterns
  else if language == "typescript" then typescriptPatterns
  else if language == "python" then pythonPatterns
  else if language == "java" then javaPatterns
  else javascriptPatterns

/-- `matchAll` row extraction: first truthy capture among groups
`1..k`. -/
def extractNames (content : String) : Option (RE × Nat) → List String
  | none => []
  | some (re, k) =>
    (execAll re content).filterMap fun m =>
      firstTruthy ((List.range k).map fun i => capStr content.data m (i + 1))

/-- `analyzeStructure(content, language)` of the static analyzer. -/
def analyzeStructure (content language : String) : CAStructure :=
  let p := patternsFor language
  { functions := extractNames content p.functions
    classes := extractNames content p.classes
    imports := extractNames content p.imports
    exports := extractNames content p.exports
    interfaces := extractNames content p.interfaces
    types := extractNames content p.types }

/-- One issue record (`{type, severity, message}`; the source sometimes
adds a redundant `pattern`/`count`/`value` echo of the message, carrying
no further information). -/
structure Issue where
  itype : String
  severity : String
  message : String
  deriving Repr, DecidableEq

/-- `detectPotentialBugs(content, language)`. -/
def detectPotentialBugs (content language : String) : List Issue :=
  let b1 := if reTest (ralt [rseq [rstr "==", rstar rws, rstr "null"],
      rseq [rstr "!=", rstar rws, rstr "null"]]) content && language == "javascript" then
    [Issue.mk "null-comparison" "low" "Use === or !== for null comparisons"] else []
  let b2 := if reTest (rseq [rstr "console.", .group 1 (ralt [rstr "log",
      rstr "error", rstr "warn", rstr "info"])]) content then
    [Issue.mk "console-statement" "low" "Console statements found in code"] else []
  let b3 := if reTest (ralt [rstr "TODO", rstr "FIXME", rstr "XXX", rstr "HACK"]) content then
    [Issue.mk "todo-comment" "info" "TODO/FIXME comments found"] else []
  b1 ++ b2 ++ b3

/-- `detectSecurityIssues(content)`. -/
def detectSecurityIssues (content : String) : List Issue :=
  let s1 := if reTest (rseq [rstr "eval", rstar rws, rchar '(']) content then
    [Issue.mk "eval-usage" "high" "eval() usage detected - potential security risk"]
  else []
  let s2 := if reTest (rseq [rstr "innerHTML", rstar rws, rchar '=']) content then
    [Issue.mk "innerHTML" "medium" "innerHTML assignment detected - potential XSS risk"]
  else []
  let secretWord := ralt [rstrCI "password", rstrCI "secret",
    rseq [rstrCI "api", ropt (roneOf ['_', '-']), rstrCI "key"]]
  let s3 := if reTest secretWord content &&
      reTest (rseq [.group 1 secretWord, rstar rws, rchar '=', rstar rws,
        roneOf FCA.quotes, rplus (rnone FCA.quotes), roneOf FCA.quotes]) content then
    [Issue.mk "hardcoded-secret" "critical" "Potential hardcoded secret detected"]
  else []
  s1 ++ s2 ++ s3

/-- `detectPerformanceIssues(content, language)` (JS/TS only). -/
def detectPerformanceIssues (content language : String) : List Issue :=
  if language == "javascript" || language == "typescript" then
    let p1 := if reTest (rstr ".forEach(") content && content.length > 1000 then
      [Issue.mk "forEach-usage" "low" "Consider using for...of for better performance"]
    else []
    let p2 := if reTest (rseq [rstr "for", rstar rws, rchar '(', rstar (rnone [')']),
        rchar ')', rstar rws, rchar '{', rstar (rnone ['}']), rstr "for", rstar rws,
        rchar '(']) content then
      [Issue.mk "nested-loops" "medium" "Nested loops detected - potential performance issue"]
    else []
    p1 ++ p2
  else []

/-- `detectStyleIssues(content, language)`. -/
def detectStyleIssues (content language : String) : List Issue :=
  let lines := jsSplit content "\n"
  let longLines := lines.filter fun l => l.length > 120
  let st1 := if longLines.length > 0 then
    [Issue.mk "long-lines" "info"
      (toString longLines.length ++ " lines exceed 120 characters")]
  else []
  let st2 := if (language == "javascript" || language == "typescript") &&
      reTest (rseq [rstr "var", rplus rws, rplus rwd, rstar rws, rchar '=']) content then
    [Issue.mk "var-usage" "low" "Use const or let instead of var"]
  else []
  st1 ++ st2

/-- `detectMaintenanceIssues(content, language)`. -/
def detectMaintenanceIssues (content : String) : List Issue :=
  let complexity := calculateComplexity content
  let m1 := if complexity.cyclomatic > 10 then
    [Issue.mk "high-complexity" "medium"
      ("High cyclomatic complexity: " ++ toString complexity.cyclomatic)]
  else []
  let m2 := if complexity.nesting > 5 then
    [Issue.mk "deep-nesting" "medium"
      ("Deep nesting level: " ++ toString complexity.nesting)]
  else []
  let metrics := calculateMetrics content
  let m3 := if metrics.totalLines > 500 then
    [Issue.mk "large-file" "low"
      ("Large file: " ++ toString metrics.totalLines ++ " lines")]
  else []
  m1 ++ m2 ++ m3

/-- Issues grouped by category (`detectIssues`). -/
structure CAIssues where
  bugs : List Issue
  security : List Issue
  performance : List Issue
  style : List Issue
  maintenance : List Issue
  deriving Repr, DecidableEq

/-- `detectIssues(content, language)`. -/
def detectIssues (content language : String) : CAIssues :=
  { bugs := detectPotentialBugs content language
    security := detectSecurityIssues content
    performance := detectPerformanceIssues content language
    style := detectStyleIssues content language
    maintenance := detectMaintenanceIssues content }

/-- Quality factors (`assessQuality`'s `factors`). -/
structure CAFactors where
  complexity : String
  size : String
  documentation : String
  deriving Repr, DecidableEq

/-- Quality record. -/
structure CAQuality where
  score : Int
  grade : String
  factors : CAFactors
  deriving Repr, DecidableEq

/-- `getGrade(score)`: breakpoints 90/80/70/60. -/
def getGrade (score : Int) : String :=
  if score ≥ 90 then "A"
  else if score ≥ 80 then "B"
  else if score ≥ 70 then "C"
  else if score ≥ 60 then "D"
  else "F"

/-- `assessQuality(content, language)`: 100 minus the conditional
deductions, clamped to [0, 100].  The comment ratio divides by
`codeLines || 1`. -/
def assessQuality (content : String) : CAQuality :=
  let metrics := calculateMetrics content
  let complexity := calculateComplexity content
  let score : Int := 100
  let score := if complexity.cyclomatic > 10 then score - 10 else score
  let score := if complexity.cyclomatic > 20 then score - 10 else score
  let score := if complexity.nesting > 5 then score - 5 else score
  let score := if metrics.totalLines > 500 then score - 5 else score
  let score := if metrics.totalLines > 1000 then score - 10 else score
  let commentRatio : ℚ := (metrics.commentLines : ℚ) /
    ((if metrics.codeLines = 0 then 1 else metrics.codeLines : Nat) : ℚ)
  let score := if commentRatio < 1/10 then score - 5 else score
  let score := max 0 (min 100 score)
  { score := score
    grade := getGrade score
    factors :=
      { complexity := if complexity.cyclomatic ≤ 10 then "good" else "needs-improvement"
        size := if metrics.totalLines ≤ 500 then "good" else "large"
        documentation := if commentRatio ≥ 1/10 then "adequate" else "insufficient" } }

/-- The full analysis record of `analyzeCode` in the non-error case. -/
structure CodeRecord where
  language : String
  metrics : CAMetrics
  complexity : CAComplexity
  struct : CAStructure
  issues : CAIssues
  quality : CAQuality
  deriving Repr, DecidableEq

/-- Result of `analyzeCode`: the error marker or the full record. -/
inductive CodeAnalysis where
  | err (msg : String) : CodeAnalysis
  | ok (r : CodeRecord) : CodeAnalysis
  deriving Repr, DecidableEq

/-- `analyzeCode(content, language)`: `{error: …}` when the content is
absent (`null`/`undefined`) or empty (all are falsy in JS), otherwise the
full record. -/
def analyzeCode (content : Option String) (language : String) : CodeAnalysis :=
  match content with
  | none => .err "No content to analyze"
  | some c =>
    if c == "" then .err "No content to analyze"
    else .ok
      { language := language
        metrics := calculateMetrics c
        complexity := calculateComplexity c
        struct := analyzeStructure c language
        issues := detectIssues c language
        quality := assessQuality c }

end CA

/-! ## `DiffAnalyzer` (src/git/security.js) and the commit-history layer
(src/git/repository.js)

Per-file orchestration (content fetch by status, impact scoring,
functional-change computation) and commit aggregation.  The revision
collaborator is abstracted as a fetch oracle `String → String → Option
String` (ref, path ↦ content or null) and branch histories as commit
lists, most recent first. -/

namespace DA

/-- JS truthiness filter for fetched content: `null`/`undefined` and the
empty string are falsy. -/
def truthy : Option String → Option String
  | some s => if s == "" then none else some s
  | none => none

/-- `getFileExtension(filePath)`: last dot-separated part, or empty. -/
def getFileExtension (filePath : String) : String :=
  let parts := jsSplit filePath "."
  if parts.length > 1 then (parts.getLast?).getD "" else ""

/-- The `detectLanguage` extension map. -/
def extensionLangMap : List (String × String) :=
  [ ("js", "javascript"), ("jsx", "javascript"), ("ts", "typescript"),
    ("tsx", "typescript"), ("py", "python"), ("java", "java"), ("cpp", "cpp"),
    ("c", "c"), ("cs", "csharp"), ("go", "go"), ("rs", "rust"), ("rb", "ruby"),
    ("php", "php"), ("swift", "swift"), ("kt", "kotlin"), ("scala", "scala"),
    ("r", "r"), ("m", "objective-c"), ("lua", "lua"), ("dart", "dart"),
    ("html", "html"), ("css", "css"), ("scss", "scss"), ("sass", "sass"),
    ("less", "less"), ("json", "json"), ("xml", "xml"), ("yaml", "yaml"),
    ("yml", "yaml"), ("md", "markdown"), ("sql", "sql"), ("sh", "shell"),
    ("bash", "shell"), ("zsh", "shell"), ("dockerfile", "dockerfile"),
    ("makefile", "makefile") ]

/-- `detectLanguage(filePath)`. -/
def detectLanguage (filePath : String) : String :=
  match extensionLangMap.find? fun e => e.1 == jsToLower (getFileExtension filePath) with
  | some e => e.2
  | none => "unknown"

/-- `compareVersions(sourceContent, targetContent)`. -/
structure Comparison where
  linesAdded : Nat
  linesRemoved : Nat
  sizeChange : Int
  deriving Repr, DecidableEq

/-- `compareVersions`: simple split-line-count delta (`targetContent`
goes through a truthiness check before being split). -/
def compareVersions (sourceContent targetContent : String) : Comparison :=
  let sourceLines := (jsSplit sourceContent "\n").length
  let targetLines := if targetContent == "" then 0 else (jsSplit targetContent "\n").length
  { linesAdded := targetLines - sourceLines
    linesRemoved := sourceLines - targetLines
    sizeChange := (targetLines : Int) - (sourceLines : Int) }

/-- The `FunctionalChangeSet` built by `analyzeFunctionalChanges`
(`modifiedFunctions` is declared but never filled by the source). -/
structure FunctionalChanges where
  addedFunctions : List String
  removedFunctions : List String
  modifiedFunctions : List String
  addedClasses : List String
  removedClasses : List String
  addedDependencies : List String
  removedDependencies : List String
  purposeChange : Option (List String × List String)
  complexityChange : Int
  deriving Repr, DecidableEq

/-- `analyzeFunctionalChanges(oldContent, newContent, language)`: runs
the content classifier on both sides with an empty path, then
set-differences names (iterating the extracted lists for functions and
classes — duplicates included — and the deduplicated dependency sets). -/
def analyzeFunctionalChanges (oldContent newContent language : String) : FunctionalChanges :=
  let oldA := FCA.analyzeFileContent "" oldContent language
  let newA := FCA.analyzeFileContent "" newContent language
  let oldFuncNames := oldA.functions.map fun f => f.name
  let newFuncNames := newA.functions.map fun f => f.name
  let oldClassNames := oldA.classes.map fun c => c.name
  let newClassNames := newA.classes.map fun c => c.name
  { addedFunctions := newFuncNames.filter fun n => !oldFuncNames.contains n
    removedFunctions := oldFuncNames.filter fun n => !newFuncNames.contains n
    modifiedFunctions := []
    addedClasses := newClassNames.filter fun n => !oldClassNames.contains n
    removedClasses := oldClassNames.filter fun n => !newClassNames.contains n
    addedDependencies := (jsDedup newA.dependencies).filter fun d =>
      !oldA.dependencies.contains d
    removedDependencies := (jsDedup oldA.dependencies).filter fun d =>
      !newA.dependencies.contains d
    purposeChange :=
      if String.intercalate "," oldA.purpose ≠ String.intercalate "," newA.purpose then
        some (oldA.purpose, newA.purpose)
      else none
    complexityChange := (newA.complexity : Int) - (oldA.complexity : Int) }

/-- The `changes` slot of a file record: the static-analysis result when
a primary content fetch succeeded (the JS object starts as `{}`), plus
the optional `comparison` glued on for modified files. -/
structure Changes where
  analysis : Option CA.CodeAnalysis
  comparison : Option Comparison
  deriving Repr, DecidableEq

/-- A file record as assembled by `analyzeFiles` before impact scoring. -/
structure FileRecord where
  path : String
  status : String
  extension : String
  language : String
  changes : Changes
  additions : Nat
  deletions : Nat
  diff : String
  contentAnalysis : Option FCA.FileAnalysis
  functionalChanges : Option FunctionalChanges
  deriving Repr, DecidableEq

/-- Impact bucket (`calculateImpact` result). -/
structure Impact where
  score : Int
  level : String
  deriving Repr, DecidableEq

/-- `fileAnalysis.changes?.complexity?.cyclomatic > 10` (false whenever
the optional chain hits `undefined`). -/
def cyclomaticOver10 (fa : FileRecord) : Bool :=
  match fa.changes.analysis with
  | some (.ok r) => r.complexity.cyclomatic > 10
  | _ => false

/-- `fileAnalysis.changes?.issues?.security?.length > 0` (false whenever
the optional chain hits `undefined`). -/
def securityIssueFound (fa : FileRecord) : Bool :=
  match fa.changes.analysis with
  | some (.ok r) => r.issues.security.length > 0
  | _ => false

/-- The running product computed by `calculateImpact` before rounding:
base 3/2/1 by status (0 otherwise), halved for a `test` path, doubled for
`config`, tripled for `security`, ×1.5 when the analyzed cyclomatic
complexity exceeds 10 and ×3 when security issues were detected. -/
def rawImpactScore (fa : FileRecord) : ℚ :=
  let score : ℚ := 0
  let score := if fa.status == "added" then score + 3 else score
  let score := if fa.status == "deleted" then score + 2 else score
  let score := if fa.status == "modified" then score + 1 else score
  let score := if jsIncludes fa.path "test" then score * (1/2) else score
  let score := if jsIncludes fa.path "config" then score * 2 else score
  let score := if jsIncludes fa.path "security" then score * 3 else score
  let score := if cyclomaticOver10 fa then score * (3/2) else score
  if securityIssueFound fa then score * 3 else score

/-- `calculateImpact(fileAnalysis)`: the stored score is
`Math.round(score)` but the level buckets the unrounded product. -/
def calculateImpact (fa : FileRecord) : Impact :=
  let score := rawImpactScore fa
  { score := round score
    level := if score > 5 then "high" else if score > 2 then "medium" else "low" }

/-- A changed-file entry of the collaborator's diff list. -/
structure DiffFile where
  path : String
  status : String
  additions : Option Nat
  deletions : Option Nat
  diff : Option String
  deriving Repr, DecidableEq

/-- A finished record: the assembled fields plus the impact. -/
structure AnalyzedFile where
  base : FileRecord
  impact : Impact
  deriving Repr, DecidableEq

/-- One iteration of the `analyzeFiles` loop, instrumented with the list
of `(ref, path)` content fetches it performs, in call order.  Added and
modified files read their primary content at `sourceBranch` resp.
`targetBranch`; modified files additionally fetch both sides for the
comparison and functional-change pass; deleted files read the
pre-deletion content at `targetBranch`; renamed files fetch nothing. -/
def analyzeOneFile (fetch : String → String → Option String)
    (sourceBranch targetBranch : String) (file : DiffFile) :
    AnalyzedFile × List (String × String) :=
  let base0 : FileRecord :=
    { path := file.path
      status := file.status
      extension := getFileExtension file.path
      language := detectLanguage file.path
      changes := { analysis := none, comparison := none }
      additions := file.additions.getD 0
      deletions := file.deletions.getD 0
      diff := file.diff.getD ""
      contentAnalysis := none
      functionalChanges := none }
  let step1 :=
    if file.status == "added" || file.status == "modified" then
      let ref := if file.status == "added" then sourceBranch else targetBranch
      let content := fetch ref file.path
      let b := match truthy content with
        | some c =>
          { base0 with
            contentAnalysis := some (FCA.analyzeFileContent file.path c base0.language)
            changes := { base0.changes with
              analysis := some (CA.analyzeCode (some c) base0.language) } }
        | none => base0
      (b, [(ref, file.path)])
    else (base0, [])
  let step2 :=
    if file.status == "modified" then
      let sourceContent := fetch sourceBranch file.path
      let targetContent := fetch targetBranch file.path
      let b := match truthy sourceContent, truthy targetContent with
        | some sc, some tc =>
          { step1.1 with
            changes := { step1.1.changes with comparison := some (compareVersions sc tc) }
            functionalChanges := some (analyzeFunctionalChanges sc tc step1.1.language) }
        | _, _ => step1.1
      (b, [(sourceBranch, file.path), (targetBranch, file.path)])
    else (step1.1, [])
  let step3 :=
    if file.status == "deleted" then
      let content := fetch targetBranch file.path
      let b := match truthy content with
        | some c =>
          { step2.1 with
            contentAnalysis := some (FCA.analyzeFileContent file.path c step2.1.language) }
        | none => step2.1
      (b, [(targetBranch, file.path)])
    else (step2.1, [])
  (⟨step3.1, calculateImpact step3.1⟩, step1.2 ++ step2.2 ++ step3.2)

/-- `analyzeFiles(repo, files, sourceBranch, targetBranch)`: the records
in diff order. -/
def analyzeFiles (fetch : String → String → Option String)
    (sourceBranch targetBranch : String) (files : List DiffFile) : List AnalyzedFile :=
  files.map fun f => (analyzeOneFile fetch sourceBranch targetBranch f).1

/-- One commit of a branch history. -/
structure Commit where
  hash : String
  abbrevHash : String
  author : String
  date : String
  message : String
  deriving Repr, DecidableEq

/-- The filter fields consumed by `getCommitHistory`.  `gitSide` stands
for the `--since`/`--until`/file options handed to `git log`, which
restrict the history before the `maxCount` truncation; the remaining
fields are applied by the JS code after it. -/
structure LogFilters where
  gitSide : Commit → Bool
  author : Option String
  fromCommit : Option String
  toCommit : Option String
  commit : Option String

/-- The empty filter object `{}`. -/
def noFilters : LogFilters :=
  { gitSide := fun _ => true, author := none, fromCommit := none,
    toCommit := none, commit := none }

/-- `filterCommitRange(commits, fromCommit, toCommit)`: slice between the
first hash-prefix matches (JS `slice(start, end)`). -/
def filterCommitRange (commits : List Commit) (fromCommit toCommit : Option String) :
    List Commit :=
  let hit : String → Commit → Bool := fun q c =>
    jsStartsWith c.hash q || jsStartsWith c.abbrevHash q
  let startIndex := match fromCommit with
    | some f => match commits.findIdx? (hit f) with
      | some i => i
      | none => 0
    | none => 0
  let endIndex := match toCommit with
    | some t => match commits.findIdx? (hit t) with
      | some i => i + 1
      | none => commits.length
    | none => commits.length
  (commits.take endIndex).drop startIndex

/-- `Repository.getCommitHistory(branch, limit, filters)`: `git log`
output (branch history restricted by the git-side filters, truncated to
the `limit` most recent) with author substring, commit range and specific
commit post-filters. -/
def getCommitHistory (history : List Commit) (limit : Nat) (f : LogFilters) : List Commit :=
  let logs := (history.filter f.gitSide).take limit
  let commits := match f.author with
    | some a => logs.filter fun c => jsIncludes (jsToLower c.author) (jsToLower a)
    | none => logs
  let commits := if f.fromCommit.isSome || f.toCommit.isSome then
    filterCommitRange commits f.fromCommit f.toCommit
  else commits
  match f.commit with
  | some cid => commits.filter fun c => jsStartsWith c.hash cid || jsStartsWith c.abbrevHash cid
  | none => commits

/-- `getCommitsBetweenBranches(repo, sourceBranch, targetBranch,
filters)`: the filter-restricted 500 most recent source commits minus the
hash set of the target's unfiltered 500 most recent, with one more pass
for a specific-commit filter. -/
def getCommitsBetweenBranches (sourceHistory targetHistory : List Commit)
    (f : LogFilters) : List Commit :=
  let sourceCommits := getCommitHistory sourceHistory 500 f
  let targetCommits := getCommitHistory targetHistory 500 noFilters
  let targetHashes := targetCommits.map fun c => c.hash
  let uniqueCommits := sourceCommits.filter fun c => !targetHashes.contains c.hash
  match f.commit with
  | some cid =>
    uniqueCommits.filter fun c => jsStartsWith c.hash cid || jsStartsWith c.abbrevHash cid
  | none => uniqueCommits

/-- `/^{type}(\(.+\))?:/i` for one conventional-commit type word. -/
def convTypeRe (t : String) : RE :=
  rseq [.bol, rstrCI t, ropt (.group 1 (rseq [rchar '(', rplus rdot, rchar ')'])),
    rchar ':']

/-- The ordered per-commit type table of `detectCommitType`. -/
def commitTypeTable : List (String × RE) :=
  ["feat", "fix", "docs", "style", "refactor", "test", "chore", "perf", "ci",
   "build", "revert"].map fun t => (t, convTypeRe t)

/-- `detectCommitType(message)`: first table match, then the
merge/hotfix/bugfix/feature keyword fallbacks, else `"other"`. -/
def detectCommitType (message : String) : String :=
  match commitTypeTable.find? fun p => reTest p.2 message with
  | some p => p.1
  | none =>
    if reTest (rstrCI "merge") message then "merge"
    else if reTest (rstrCI "hotfix") message then "hotfix"
    else if reTest (ralt [rstrCI "bugfix", rstrCI "bug"]) message then "fix"
    else if reTest (rstrCI "feature") message then "feat"
    else "other"

/-- The combined conventional-commit regex of `detectCommitPatterns`:
`/^(feat|fix|docs|style|refactor|test|chore|perf|ci|build)(\(.+\))?:/i`
— ten alternatives, without `revert`. -/
def conventionalRe : RE :=
  rseq [.bol,
    .group 1 (ralt (["feat", "fix", "docs", "style", "refactor", "test", "chore",
      "perf", "ci", "build"].map rstrCI)),
    ropt (.group 2 (rseq [rchar '(', rplus rdot, rchar ')'])), rchar ':']

/-- `/\b[A-Z]+-\d+\b/`. -/
def ticketRe : RE :=
  rseq [.wordB, rplus (.cls fun c => c.isUpper), rchar '-', rplus rdg, .wordB]

/-- A detected repository-level pattern record. -/
structure CommitPattern where
  ptype : String
  confidence : String
  description : String
  deriving Repr, DecidableEq

/-- `detectCommitPatterns(commits)`: conventional commits above the 70%
threshold (the `> commits.length * 0.7` comparison follows IEEE double
semantics via `gtMul07`, observable where `7n/10` is integral), ticket
references above the 50% threshold (`n * 0.5` is exact for every
reachable length, so the rational comparison is the double one). -/
def detectCommitPatterns (commits : List Commit) : List CommitPattern :=
  let conventionalCommits := commits.filter fun c => reTest conventionalRe c.message
  let p1 := if gtMul07 conventionalCommits.length commits.length then
    [CommitPattern.mk "conventional-commits" "high"
      "Project follows Conventional Commits specification"]
  else []
  let hasTicketRefs := commits.filter fun c => reTest ticketRe c.message
  let p2 := if (hasTicketRefs.length : ℚ) > (commits.length : ℚ) * (1/2) then
    [CommitPattern.mk "ticket-references" "medium"
      "Commits frequently reference issue/ticket numbers"]
  else []
  p1 ++ p2

end DA

/-! ## Specification-side definitions

Formulations that follow the wording of the specification (and of the
claims under audit), to be compared with the source-derived functions
above. -/

/-- Spec §4.3 impact base: 3 for `added`, 2 for `deleted`, 1 for
`modified` (nothing is said for other statuses; the code contributes 0). -/
def specImpactBase (status : String) : ℚ :=
  if status = "added" then 3
  else if status = "deleted" then 2
  else if status = "modified" then 1
  else 0

/-- The impact score as the spec words it: the base multiplied by 0.5
for a `test` path, 2 for `config`, 3 for `security`, 1.5 for cyclomatic
complexity over 10, and 3 when security issues were detected. -/
def specImpactProduct (fa : DA.FileRecord) : ℚ :=
  specImpactBase fa.status *
    (if jsIncludes fa.path "test" then 1/2 else 1) *
    (if jsIncludes fa.path "config" then 2 else 1) *
    (if jsIncludes fa.path "security" then 3 else 1) *
    (if DA.cyclomaticOver10 fa then 3/2 else 1) *
    (if DA.securityIssueFound fa then 3 else 1)

/-- The impact record as claim C1 words it: score is the rounded product
and the level is derived from that **rounded** score. -/
def claimImpact (fa : DA.FileRecord) : DA.Impact :=
  let r : ℤ := round (specImpactProduct fa)
  { score := r
    level := if r > 5 then "high" else if r > 2 then "medium" else "low" }

/-- Replace the analyzed cyclomatic complexity of a file record (keeping
every other field), for the otherwise-identical-records comparison of
claim C3. -/
def withCyclomatic (fa : DA.FileRecord) (r : CA.CodeRecord) (n : Nat) : DA.FileRecord :=
  { fa with changes := { fa.changes with
      analysis := some (.ok { r with complexity := { r.complexity with cyclomatic := n } }) } }

/-- The quality deductions as the spec lists them, summed. -/
def specDeductions (content : String) : Int :=
  let complexity := CA.calculateComplexity content
  let metrics := CA.calculateMetrics content
  let commentRatio : ℚ := (metrics.commentLines : ℚ) /
    ((if metrics.codeLines = 0 then 1 else metrics.codeLines : Nat) : ℚ)
  (if complexity.cyclomatic > 10 then 10 else 0) +
  (if complexity.cyclomatic > 20 then 10 else 0) +
  (if complexity.nesting > 5 then 5 else 0) +
  (if metrics.totalLines > 500 then 5 else 0) +
  (if metrics.totalLines > 1000 then 10 else 0) +
  (if commentRatio < 1/10 then 5 else 0)

/-- Rank of a letter grade, best first, for stating that the score-to-
grade map is monotonically non-increasing. -/
def gradeRank (g : String) : Nat :=
  if g = "A" then 0
  else if g = "B" then 1
  else if g = "C" then 2
  else if g = "D" then 3
  else 4

/-- A commit message matching the per-commit conventional type table
(the eleven ordered patterns of `detectCommitType`, `revert`
included). -/
def matchesTypeTable (message : String) : Bool :=
  DA.commitTypeTable.any fun p => reTest p.2 message

/-! ## Helper lemmas -/

/-- The split worker never returns an empty segment list. -/
theorem splitGo_ne_nil (sep : List Char) :
    ∀ (fuel : Nat) (l acc : List Char), splitGo sep fuel l acc ≠ [] := by
  intro fuel
  induction fuel with
  | zero =>
    intro l acc
    cases l <;> simp [splitGo]
  | succ k ih =>
    intro l acc
    cases l with
    | nil => simp [splitGo]
    | cons c rest =>
      rw [splitGo]
      split
      · simp
      · exact ih rest (c :: acc)

/-- A split along a non-empty separator has at least one segment. -/
theorem jsSplit_length_pos (s sep : String) (h : ¬ sep.isEmpty) :
    1 ≤ (jsSplit s sep).length := by
  unfold jsSplit
  rw [if_neg h]
  have hne := splitGo_ne_nil sep.data (s.data.length + 1) s.data []
  simp only [List.length_map]
  exact List.length_pos.mpr hne

/-- `shift53` brings its argument under `2^53` and, when it shifts at
all, the argument fills the shifted range (it has exactly `53 + s`
bits). -/
theorem shift53_spec : ∀ (fuel P : Nat), P < 2 ^ (53 + fuel) →
    P / 2 ^ shift53 fuel P < 2 ^ 53 ∧
    (shift53 fuel P = 0 ∨ 2 ^ (52 + shift53 fuel P) ≤ P) := by
  intro fuel
  induction fuel with
  | zero =>
    intro P hP
    constructor
    · simpa [shift53] using hP
    · left; rfl
  | succ f ih =>
    intro P hP
    rw [shift53]
    split_ifs with h
    · exact ⟨by simpa using h, Or.inl rfl⟩
    · have hP2 : P / 2 < 2 ^ (53 + f) := by
        have h54 : P < 2 ^ (53 + f) * 2 := by
          have : 53 + (f + 1) = (53 + f) + 1 := by omega
          rw [this, pow_succ] at hP
          exact hP
        omega
      obtain ⟨ih1, ih2⟩ := ih (P / 2) hP2
      constructor
      · have hdd : P / 2 ^ (shift53 f (P / 2) + 1) = P / 2 / 2 ^ shift53 f (P / 2) := by
          rw [Nat.div_div_eq_div_mul, pow_succ']
        rw [hdd]
        exact ih1
      · right
        rcases ih2 with h0 | hge
        · rw [h0]
          simpa using Nat.le_of_not_lt h
        · have h2 : 2 ^ (52 + shift53 f (P / 2)) * 2 ≤ P / 2 * 2 :=
            Nat.mul_le_mul_right 2 hge
          have h3 : P / 2 * 2 ≤ P := Nat.div_mul_le_self P 2
          calc 2 ^ (52 + (shift53 f (P / 2) + 1))
              = 2 ^ (52 + shift53 f (P / 2)) * 2 := by
                have e : 52 + (shift53 f (P / 2) + 1) = 52 + shift53 f (P / 2) + 1 := by
                  omega
                rw [e, pow_succ]
            _ ≤ P / 2 * 2 := h2
            _ ≤ P := h3

/-- Round-to-nearest error bound: the 53-bit rounding of `P` moves it by
at most half an ulp, which is bounded by `P / 2^53`. -/
theorem rne53num_err (P : Nat) (hP : P < 2 ^ 2101) :
    ∃ c : Nat, rne53num P ≤ P + c ∧ P ≤ rne53num P + c ∧ c * 2 ^ 53 ≤ P := by
  obtain ⟨hlt, hcase⟩ := shift53_spec 2048 P hP
  simp only [rne53num]
  set s := shift53 2048 P with hs
  clear_value s
  by_cases h0 : s = 0
  · exact ⟨0, by simp [h0], by simp [h0], Nat.zero_le _⟩
  · have hge : 2 ^ (52 + s) ≤ P := hcase.resolve_left h0
    have hA : (2:ℕ) ^ (s - 1) + 2 ^ (s - 1) = 2 ^ s := by
      have hsucc : s - 1 + 1 = s := by omega
      calc (2:ℕ) ^ (s - 1) + 2 ^ (s - 1) = 2 ^ (s - 1) * 2 := by ring
        _ = 2 ^ (s - 1 + 1) := (pow_succ 2 (s - 1)).symm
        _ = 2 ^ s := by rw [hsucc]
    have hkey : 2 ^ s * (P / 2 ^ s) + P % 2 ^ s = P := Nat.div_add_mod P (2 ^ s)
    have hkey2 : P / 2 ^ s * 2 ^ s + P % 2 ^ s = P := by rw [mul_comm]; exact hkey
    have hr : P % 2 ^ s < 2 ^ s := Nat.mod_lt _ (by positivity)
    have hc53 : 2 ^ (s - 1) * 2 ^ 53 ≤ P := by
      calc (2:ℕ) ^ (s - 1) * 2 ^ 53 = 2 ^ (s - 1 + 53) := (pow_add 2 (s - 1) 53).symm
        _ = 2 ^ (52 + s) := by congr 1; omega
        _ ≤ P := hge
    refine ⟨2 ^ (s - 1), ?_, ?_, hc53⟩
    · rw [if_neg h0]
      split_ifs with h1 h2 h3 <;>
        first
          | omega
          | (rw [add_mul, one_mul]; omega)
    · rw [if_neg h0]
      split_ifs with h1 h2 h3 <;>
        first
          | omega
          | (rw [add_mul, one_mul]; omega)

/-- Behaviour of the IEEE `k > n * 0.7` comparison away from the exact
boundary: strictly more than 70% always fires, strictly less never does
(for every length reachable by a JS array, far below `2^49`). -/
theorem gtMul07_spec (k n : Nat) (hn : n ≤ 2 ^ 49) :
    (7 * n < 10 * k → gtMul07 k n = true) ∧
    (10 * k < 7 * n → gtMul07 k n = false) := by
  have hP : n * fl07num < 2 ^ 2101 := by
    calc n * fl07num ≤ 2 ^ 49 * fl07num := Nat.mul_le_mul_right _ hn
      _ < 2 ^ 49 * 2 ^ 53 := by norm_num [fl07num]
      _ = 2 ^ 102 := by rw [← pow_add]
      _ ≤ 2 ^ 2101 := Nat.pow_le_pow_right (by norm_num) (by norm_num)
  obtain ⟨c, hup, hdown, hc⟩ := rne53num_err (n * fl07num) hP
  have hM : fl07num = 6305039478318694 := rfl
  have e53 : (2:ℕ) ^ 53 = 9007199254740992 := by norm_num
  have e49 : (2:ℕ) ^ 49 = 562949953421312 := by norm_num
  rw [hM] at hup hdown hc
  rw [e53] at hc
  rw [e49] at hn
  constructor
  · intro h
    simp only [gtMul07, hM, e53, decide_eq_true_eq]
    omega
  · intro h
    simp only [gtMul07, hM, e53, decide_eq_false_iff_not, not_lt]
    omega

/-- `round` is monotone on the rationals. -/
theorem round_rat_mono {x y : ℚ} (h : x ≤ y) : round x ≤ round y := by
  rw [round_eq, round_eq]
  exact Int.floor_le_floor (by linarith)

/-- Pull a conditional multiplication out as a conditional factor. -/
theorem iteMul (b : Bool) (x m : ℚ) :
    (if b then x * m else x) = x * (if b then m else 1) := by
  cases b <;> simp

/-- The three sequential status additions equal the spec's base table. -/
theorem statusChain_eq_base (st : String) :
    (if st == "modified" then
      (if st == "deleted" then (if st == "added" then (0:ℚ) + 3 else 0) + 2
       else if st == "added" then (0:ℚ) + 3 else 0) + 1
     else if st == "deleted" then (if st == "added" then (0:ℚ) + 3 else 0) + 2
     else if st == "added" then (0:ℚ) + 3 else 0) = specImpactBase st := by
  unfold specImpactBase
  cases hA : st == "added" <;> cases hD : st == "deleted" <;> cases hM : st == "modified"
  all_goals
    first
    | (have h1 := eq_of_beq hA; subst h1; simp_all)
    | (have h1 := eq_of_beq hD; subst h1; simp_all)
    | (have h1 := eq_of_beq hM; subst h1; simp_all)
    | simp [hA, hD, hM, ne_of_beq_false hA, ne_of_beq_false hD, ne_of_beq_false hM]

/-- The sequential multiplications of `calculateImpact` compute exactly
the spec's product of base and condition multipliers. -/
theorem rawImpactScore_eq_spec (fa : DA.FileRecord) :
    DA.rawImpactScore fa = specImpactProduct fa := by
  simp only [DA.rawImpactScore]
  rw [iteMul, iteMul, iteMul, iteMul, iteMul, statusChain_eq_base]
  unfold specImpactProduct
  ring

/-- Impact product of a record whose analyzed cyclomatic complexity was
replaced: every factor but the ×1.5 condition is unchanged. -/
theorem specImpactProduct_withCyclomatic (fa : DA.FileRecord) (r : CA.CodeRecord) (n : Nat) :
    specImpactProduct (withCyclomatic fa r n) =
      specImpactBase fa.status *
      (if jsIncludes fa.path "test" then 1/2 else 1) *
      (if jsIncludes fa.path "config" then 2 else 1) *
      (if jsIncludes fa.path "security" then 3 else 1) *
      (if n > 10 then 3/2 else 1) *
      (if r.issues.security.length > 0 then 3 else 1) := by
  have hover : DA.cyclomaticOver10 (withCyclomatic fa r n) = decide (n > 10) := rfl
  have hsec : DA.securityIssueFound (withCyclomatic fa r n) =
      decide (r.issues.security.length > 0) := rfl
  have hpath : (withCyclomatic fa r n).path = fa.path := rfl
  have hstat : (withCyclomatic fa r n).status = fa.status := rfl
  simp only [specImpactProduct, hover, hsec, hpath, hstat, decide_eq_true_eq]

/-! ## Concrete instances used by counterexamples and witnesses -/

/-- Content with eleven `if (` decision points: cyclomatic 12 and no
security findings. -/
def over10Content : String :=
  "if (if (if (if (if (if (if (if (if (if (if (x"

/-- A modified file under both a `test` and a `security` path segment,
whose analyzed cyclomatic complexity exceeds 10 and that has no security
issues: the impact product is 1 × ½ × 3 × 1.5 = 2.25. -/
def impactCE : DA.FileRecord :=
  { path := "security/test/a.js"
    status := "modified"
    extension := "js"
    language := "javascript"
    changes := { analysis := some (CA.analyzeCode (some over10Content) "javascript")
                 comparison := none }
    additions := 1
    deletions := 1
    diff := ""
    contentAnalysis := none
    functionalChanges := none }

/-- A plain static-analysis record (cyclomatic 1, no issues). -/
def plainCode : CA.CodeRecord :=
  { language := "javascript"
    metrics := ⟨1, 1, 0, 0, 1, 1⟩
    complexity := ⟨1, 0, 0, ⟨0, 0⟩⟩
    struct := ⟨[], [], [], [], [], []⟩
    issues := ⟨[], [], [], [], []⟩
    quality := ⟨95, "A", ⟨"good", "good", "insufficient"⟩⟩ }

/-- A modified file under a `test` path segment with no further
multipliers. -/
def monotoneCE : DA.FileRecord :=
  { path := "test/a.js"
    status := "modified"
    extension := "js"
    language := "javascript"
    changes := { analysis := none, comparison := none }
    additions := 0
    deletions := 0
    diff := ""
    contentAnalysis := none
    functionalChanges := none }

/-! ## Claims -/

/-- **C1** (amended).  For every file record, `calculateImpact` stores as
`score` the rounded product of the base 3/2/1 (by status added, deleted,
modified) with the multipliers ½ (`test` path), 2 (`config`), 3
(`security`), 1.5 (cyclomatic > 10) and 3 (security issues); the `level`,
however, buckets the **unrounded** product (high > 5, medium > 2, low
otherwise), not the rounded score. -/
theorem c1_impact_formula (fa : DA.FileRecord) :
    DA.calculateImpact fa =
      { score := round (specImpactProduct fa)
        level := if specImpactProduct fa > 5 then "high"
                 else if specImpactProduct fa > 2 then "medium" else "low" } := by
  simp only [DA.calculateImpact, rawImpactScore_eq_spec]

/-- **C1** counterexample.  On a modified file whose product is 2.25
(`test` and `security` path segments, cyclomatic over 10), the code
reports level `"medium"` (2.25 > 2) while the claim's
level-from-rounded-score (round 2.25 = 2, and 2 > 2 fails) says
`"low"`. -/
theorem c1_counterexample : DA.calculateImpact impactCE ≠ claimImpact impactCE := by
  have ht : jsIncludes impactCE.path "test" = true := by decide
  have hc : jsIncludes impactCE.path "config" = false := by decide
  have hs : jsIncludes impactCE.path "security" = true := by decide
  have hcy : DA.cyclomaticOver10 impactCE = true := by decide
  have hsec : DA.securityIssueFound impactCE = false := by decide
  have hst : impactCE.status = "modified" := rfl
  have hprod : specImpactProduct impactCE = 9/4 := by
    simp only [specImpactProduct, specImpactBase, ht, hc, hs, hcy, hsec, hst]
    norm_num
    simp
  simp only [DA.calculateImpact, rawImpactScore_eq_spec, claimImpact, hprod]
  norm_num [round_eq, DA.Impact.mk.injEq]
  decide

/-- **C1** witness for the amended statement at the concrete record. -/
theorem c1_witness :
    DA.calculateImpact impactCE =
      { score := round (specImpactProduct impactCE)
        level := if specImpactProduct impactCE > 5 then "high"
                 else if specImpactProduct impactCE > 2 then "medium" else "low" } :=
  c1_impact_formula impactCE

/-- **C3** (amended).  For two modified-file records identical except for
the analyzed cyclomatic complexity (15 versus 5), the unrounded impact
product of the complexity-15 record is strictly higher (the ×1.5
multiplier applies exactly to it), and its stored (rounded) score is at
least as high — but, because of the rounding, not always strictly
higher. -/
theorem c3_impact_monotone (fa : DA.FileRecord) (r : CA.CodeRecord)
    (h : fa.status = "modified") :
    DA.rawImpactScore (withCyclomatic fa r 5) < DA.rawImpactScore (withCyclomatic fa r 15) ∧
    (DA.calculateImpact (withCyclomatic fa r 5)).score ≤
      (DA.calculateImpact (withCyclomatic fa r 15)).score := by
  have hlt : DA.rawImpactScore (withCyclomatic fa r 5) <
      DA.rawImpactScore (withCyclomatic fa r 15) := by
    rw [rawImpactScore_eq_spec, rawImpactScore_eq_spec,
      specImpactProduct_withCyclomatic, specImpactProduct_withCyclomatic, h]
    rw [show specImpactBase "modified" = 1 by simp [specImpactBase]]
    rw [if_pos (by norm_num : (15:ℕ) > 10), if_neg (by norm_num : ¬ (5:ℕ) > 10)]
    have hA : (0:ℚ) < (if jsIncludes fa.path "test" then 1/2 else 1) := by
      split_ifs <;> norm_num
    have hB : (0:ℚ) < (if jsIncludes fa.path "config" then 2 else 1) := by
      split_ifs <;> norm_num
    have hC : (0:ℚ) < (if jsIncludes fa.path "security" then 3 else 1) := by
      split_ifs <;> norm_num
    have hS : (0:ℚ) < (if r.issues.security.length > 0 then (3:ℚ) else 1) := by
      split_ifs <;> norm_num
    nlinarith [mul_pos (mul_pos (mul_pos hA hB) hC) hS]
  refine ⟨hlt, ?_⟩
  simp only [DA.calculateImpact]
  exact round_rat_mono (le_of_lt hlt)

/-- **C3** counterexample.  A modified file under a `test` path with no
other multipliers: with cyclomatic 5 the product is 0.5 (stored score
round 0.5 = 1), with cyclomatic 15 it is 0.75 (stored score round 0.75 =
1) — the stored impact scores are equal, not strictly ordered. -/
theorem c3_counterexample :
    ¬ ((DA.calculateImpact (withCyclomatic monotoneCE plainCode 5)).score <
       (DA.calculateImpact (withCyclomatic monotoneCE plainCode 15)).score) := by
  have ht : jsIncludes monotoneCE.path "test" = true := by decide
  have hc : jsIncludes monotoneCE.path "config" = false := by decide
  have hs : jsIncludes monotoneCE.path "security" = false := by decide
  have hsecl : plainCode.issues.security.length = 0 := rfl
  have hstat : monotoneCE.status = "modified" := rfl
  have e5 : specImpactProduct (withCyclomatic monotoneCE plainCode 5) = 1/2 := by
    rw [specImpactProduct_withCyclomatic]
    simp only [ht, hc, hs, hsecl, hstat]
    norm_num [specImpactBase]
    simp
  have e15 : specImpactProduct (withCyclomatic monotoneCE plainCode 15) = 3/4 := by
    rw [specImpactProduct_withCyclomatic]
    simp only [ht, hc, hs, hsecl, hstat]
    norm_num [specImpactBase]
    simp
  simp only [DA.calculateImpact, rawImpactScore_eq_spec, e5, e15]
  norm_num [round_eq]

/-- **C3** witness for the amended statement at a concrete record. -/
theorem c3_witness :
    DA.rawImpactScore (withCyclomatic monotoneCE plainCode 5) <
      DA.rawImpactScore (withCyclomatic monotoneCE plainCode 15) ∧
    (DA.calculateImpact (withCyclomatic monotoneCE plainCode 5)).score ≤
      (DA.calculateImpact (withCyclomatic monotoneCE plainCode 15)).score :=
  c3_impact_monotone monotoneCE plainCode rfl

/-- The old side of the spec's end-to-end scenario (§8). -/
def oldScenario : String := "function foo(){}"

/-- The new side of the spec's end-to-end scenario (§8). -/
def newScenario : String :=
  "function foo(){} function bar(){} const axios = require('axios');"

set_option maxHeartbeats 8000000 in
/-- **C2** (amended).  On the end-to-end scenario the functional change
set lists `bar` **twice** in `addedFunctions` (once from the
function-declaration pattern and once from the method-like pattern, and
the diff iterates the extracted list without deduplication), has
`addedDependencies = ["axios"]`, empty removed lists, `complexityChange`
equal to the new snapshot's complexity minus the old's (here 1 − 1 = 0),
and a **non-null** `purposeChange`: the substring `axios` in the new
content triggers the API-communication purpose tag while the old content
only carries the generic fallback tag. -/
theorem c2_functional_changes :
    DA.analyzeFunctionalChanges oldScenario newScenario "javascript" =
      { addedFunctions := ["bar", "bar"]
        removedFunctions := []
        modifiedFunctions := []
        addedClasses := []
        removedClasses := []
        addedDependencies := ["axios"]
        removedDependencies := []
        purposeChange := some (["汎用モジュール"], ["API通信"])
        complexityChange :=
          ((FCA.analyzeFileContent "" newScenario "javascript").complexity : Int) -
            ((FCA.analyzeFileContent "" oldScenario "javascript").complexity : Int) } := by
  decide

set_option maxHeartbeats 8000000 in
/-- **C2** counterexample.  The claim's record — `bar` listed once and
`purposeChange = null` — does not match what the code computes on the
scenario. -/
theorem c2_counterexample :
    ¬ ((DA.analyzeFunctionalChanges oldScenario newScenario "javascript").addedFunctions =
         ["bar"] ∧
       (DA.analyzeFunctionalChanges oldScenario newScenario "javascript").purposeChange =
         none) := by
  decide

/-- Binary-looking content: a NUL byte followed by text that happens to
contain `assert`. -/
def binaryContent : String := "\u0000assert"

/-- The purpose field of a snapshot analysis is the purpose detector's
output. -/
theorem analyzeFileContent_purpose (p c l : String) :
    (FCA.analyzeFileContent p c l).purpose = FCA.detectFilePurpose p c := by
  simp only [FCA.analyzeFileContent]

/-- The structural record of a snapshot analysis is the structure
pass's output. -/
theorem analyzeFileContent_struct (p c l : String) :
    (FCA.analyzeFileContent p c l).struct = FCA.analyzeStructure c := by
  simp only [FCA.analyzeFileContent]

/-- The structural line count is the split-line count. -/
theorem analyzeStructure_lines (c : String) :
    (FCA.analyzeStructure c).lines = (jsSplit c "\n").length := rfl

/-- **C4** (amended).  The classifier is a total function — every (path,
content, language) triple yields a full `FileSnapshotAnalysis` (the
embedding returns one for all inputs, mirroring that the JS heuristics
are total over strings) with a never-empty purpose tag set and a
structural record counting the newline-separated segments, of which
there is always at least one.  There is **no** degradation branch for
non-text input: binary-looking content runs through the same pattern
rules (see the counterexample, where NUL-prefixed content classifies as
`test-unit`). -/
theorem c4_total_no_degradation (path content language : String) :
    0 < (FCA.analyzeFileContent path content language).purpose.length ∧
    (FCA.analyzeFileContent path content language).struct.lines =
      (jsSplit content "\n").length ∧
    1 ≤ (FCA.analyzeFileContent path content language).struct.lines := by
  have aux : ∀ l : List String, 0 < (if l.length > 0 then l else ["汎用モジュール"]).length := by
    intro l
    split
    · assumption
    · simp
  rw [analyzeFileContent_purpose, analyzeFileContent_struct, analyzeStructure_lines]
  refine ⟨?_, rfl, jsSplit_length_pos content "\n" (by decide)⟩
  unfold FCA.detectFilePurpose
  exact aux _

/-- **C4** witness: the amended statement applied at the binary-looking
input. -/
theorem c4_witness :
    0 < (FCA.analyzeFileContent "x.bin" binaryContent "unknown").purpose.length ∧
    (FCA.analyzeFileContent "x.bin" binaryContent "unknown").struct.lines =
      (jsSplit binaryContent "\n").length ∧
    1 ≤ (FCA.analyzeFileContent "x.bin" binaryContent "unknown").struct.lines :=
  c4_total_no_degradation "x.bin" binaryContent "unknown"

/-- **C5**.  Content fetches of the per-file analysis loop, by status: an
added file reads its content at the source ref only; a deleted file reads
its pre-deletion content at the target ref only (and it feeds nothing but
the classification field); a renamed file performs no content fetch and
no content analysis at all. -/
theorem c5_fetch_by_status (fetch : String → String → Option String)
    (src tgt : String) (file : DA.DiffFile) :
    (file.status = "added" →
      (DA.analyzeOneFile fetch src tgt file).2 = [(src, file.path)] ∧
      (DA.analyzeOneFile fetch src tgt file).1.base.contentAnalysis =
        (DA.truthy (fetch src file.path)).map fun c =>
          FCA.analyzeFileContent file.path c (DA.detectLanguage file.path)) ∧
    (file.status = "deleted" →
      (DA.analyzeOneFile fetch src tgt file).2 = [(tgt, file.path)] ∧
      ((DA.analyzeOneFile fetch src tgt file).1.base.contentAnalysis =
        (DA.truthy (fetch tgt file.path)).map fun c =>
          FCA.analyzeFileContent file.path c (DA.detectLanguage file.path)) ∧
      (DA.analyzeOneFile fetch src tgt file).1.base.changes.analysis = none) ∧
    (file.status = "renamed" →
      (DA.analyzeOneFile fetch src tgt file).2 = [] ∧
      (DA.analyzeOneFile fetch src tgt file).1.base.contentAnalysis = none ∧
      (DA.analyzeOneFile fetch src tgt file).1.base.changes =
        { analysis := none, comparison := none } ∧
      (DA.analyzeOneFile fetch src tgt file).1.base.functionalChanges = none) := by
  refine ⟨fun h => ?_, fun h => ?_, fun h => ?_⟩
  · cases hc : DA.truthy (fetch src file.path) <;>
      simp [DA.analyzeOneFile, h, hc]
  · cases hc : DA.truthy (fetch tgt file.path) <;>
      simp [DA.analyzeOneFile, h, hc]
  · simp [DA.analyzeOneFile, h]

/-- A constant-content fetch oracle. -/
def constFetch : String → String → Option String := fun _ _ => some "x = 1"

/-- An added-file diff entry. -/
def addedFile : DA.DiffFile := ⟨"a.js", "added", none, none, none⟩

/-- **C5** witness: the added branch at a concrete oracle and file. -/
theorem c5_witness :
    (DA.analyzeOneFile constFetch "src" "tgt" addedFile).2 = [("src", "a.js")] ∧
    (DA.analyzeOneFile constFetch "src" "tgt" addedFile).1.base.contentAnalysis =
      (DA.truthy (constFetch "src" "a.js")).map fun c =>
        FCA.analyzeFileContent "a.js" c (DA.detectLanguage "a.js") :=
  (c5_fetch_by_status constFetch "src" "tgt" addedFile).1 rfl

set_option maxHeartbeats 16000000 in
/-- **C6**.  For every content, the quality score is 100 minus the six
conditional deductions (10 for cyclomatic > 10 plus a further 10 over 20,
5 for nesting > 5, 5 for more than 500 lines plus a further 10 over 1000,
5 for a comment-to-code ratio below 0.1), clamped to [0, 100]; the grade
is the 90/80/70/60-breakpoint map of that score, which is monotonically
non-increasing and sends 90 to A, 89 to B, 79 to C, 69 to D and 59 to
F. -/
theorem c6_quality_score_grade :
    (∀ content : String,
      (CA.assessQuality content).score =
        max 0 (min 100 (100 - specDeductions content)) ∧
      (CA.assessQuality content).grade = CA.getGrade ((CA.assessQuality content).score)) ∧
    CA.getGrade 90 = "A" ∧ CA.getGrade 89 = "B" ∧ CA.getGrade 79 = "C" ∧
    CA.getGrade 69 = "D" ∧ CA.getGrade 59 = "F" ∧
    ∀ s t : Int, s ≤ t → gradeRank (CA.getGrade t) ≤ gradeRank (CA.getGrade s) := by
  refine ⟨fun content => ⟨?_, ?_⟩, by decide, by decide, by decide, by decide, by decide,
    fun s t h => ?_⟩
  · simp only [CA.assessQuality, specDeductions]
    split_ifs <;> decide
  · simp only [CA.assessQuality]
  · unfold CA.getGrade
    split_ifs <;> first | decide | (exfalso; omega)

/-- **C6** witness: the monotone part applied at scores 59 and 90. -/
theorem c6_witness :
    (59:ℤ) ≤ 90 ∧ gradeRank (CA.getGrade 90) ≤ gradeRank (CA.getGrade 59) :=
  ⟨by norm_num, c6_quality_score_grade.2.2.2.2.2.2 59 90 (by norm_num)⟩

set_option maxHeartbeats 16000000 in
/-- **C10**.  The six deductions sum to at most 45, so the quality score
never drops below 55 (the clamp at 0 is unreachable), and the grade is F
exactly for the scores from 55 to 59. -/
theorem c10_score_at_least_55 (content : String) :
    55 ≤ (CA.assessQuality content).score ∧
    ((CA.assessQuality content).grade = "F" ↔ (CA.assessQuality content).score ≤ 59) := by
  simp only [CA.assessQuality]
  split_ifs <;> exact ⟨by decide, by decide⟩

/-- **C7** (amended).  The repository-level "conventional commits"
pattern is reported exactly when the count of commits matching the
**ten-type** combined regex (`feat|fix|docs|style|refactor|test|chore|
perf|ci|build`, without the `revert` entry of the per-commit type table)
exceeds the IEEE-754 double product `length * 0.7`: strictly more than
70% always fires and strictly less never does, while at exactly 70% the
double rounding decides — at 90 commits (63 conventional) the pattern IS
reported, at 10 commits (7 conventional) it is not.  "Ticket references"
is reported exactly when more than 50% of the commits contain the
uppercase-prefix/number pattern (the 0.5 product is exact). -/
theorem c7_commit_patterns (commits : List DA.Commit) :
    (((DA.detectCommitPatterns commits).any fun p =>
        p.ptype == "conventional-commits") = true ↔
      gtMul07 (commits.filter fun c => reTest DA.conventionalRe c.message).length
        commits.length = true) ∧
    (((DA.detectCommitPatterns commits).any fun p =>
        p.ptype == "ticket-references") = true ↔
      (((commits.filter fun c => reTest DA.ticketRe c.message).length : ℚ) >
        (commits.length : ℚ) * (1/2))) ∧
    (∀ k n : Nat, n ≤ 2 ^ 49 → 7 * n < 10 * k → gtMul07 k n = true) ∧
    (∀ k n : Nat, n ≤ 2 ^ 49 → 10 * k < 7 * n → gtMul07 k n = false) ∧
    (gtMul07 63 90 = true ∧ 7 * 90 = 10 * 63) ∧
    (gtMul07 7 10 = false ∧ 7 * 10 = 10 * 7) := by
  refine ⟨?_, ?_, fun k n hn h => (gtMul07_spec k n hn).1 h,
    fun k n hn h => (gtMul07_spec k n hn).2 h,
    ⟨by decide, by norm_num⟩, ⟨by decide, by norm_num⟩⟩
  · simp only [DA.detectCommitPatterns]
    split_ifs with h1 h2 <;> simp_all
  · simp only [DA.detectCommitPatterns]
    split_ifs with h1 h2 <;> simp_all

/-- **C7** witness: eight conventional commits out of eight (more than
70%) trigger the comparison. -/
theorem c7_witness : gtMul07 8 8 = true :=
  (c7_commit_patterns []).2.2.1 8 8 (by norm_num) (by norm_num)

/-- A commit whose message matches the per-commit type table's `revert`
entry but not the ten-type pattern regex. -/
def revertCommit : DA.Commit :=
  ⟨"deadbeef", "dead", "alice", "2024-01-01", "revert: undo"⟩

/-- **C7** counterexample.  A single `revert:`-prefixed commit is
classified by the per-commit type table (100% > 70%), yet the pattern
detector — whose regex lacks `revert` — reports nothing, refuting the
claim that the threshold is taken over the per-commit type table. -/
theorem c7_counterexample :
    ¬ ((((DA.detectCommitPatterns [revertCommit]).any fun p =>
          p.ptype == "conventional-commits") = true) ↔
        (((([revertCommit].filter fun c => matchesTypeTable c.message).length : ℚ) >
          (([revertCommit] : List DA.Commit).length : ℚ) * (7/10)))) := by
  have h1 : ([revertCommit].filter fun c => matchesTypeTable c.message) =
      [revertCommit] := by decide
  have hconv : ([revertCommit].filter fun c => reTest DA.conventionalRe c.message) =
      [] := by decide
  have htick : ([revertCommit].filter fun c => reTest DA.ticketRe c.message) =
      [] := by decide
  have hg : gtMul07 0 1 = false := by decide
  rw [h1]
  simp only [DA.detectCommitPatterns, hconv, htick, List.length_nil, List.length_cons,
    hg]
  norm_num

/-- **C8**.  `analyzeCode` yields the error marker exactly when the
content is absent or empty, and the full record (metrics, complexity,
structure, issues, quality) exactly otherwise. -/
theorem c8_analyze_code_error_iff (content : Option String) (language : String) :
    ((CA.analyzeCode content language = .err "No content to analyze") ↔
      (content = none ∨ content = some "")) ∧
    ((∃ r, CA.analyzeCode content language = .ok r) ↔
      ¬ (content = none ∨ content = some "")) := by
  cases content with
  | none => simp [CA.analyzeCode]
  | some c =>
    by_cases hc : c = ""
    · subst hc
      simp [CA.analyzeCode]
    · simp [CA.analyzeCode, hc]

/-- Subset step: the slice taken by `filterCommitRange` only contains
commits of its input list. -/
theorem mem_of_mem_filterCommitRange {c : DA.Commit} {l : List DA.Commit}
    {fc tc : Option String} (h : c ∈ DA.filterCommitRange l fc tc) : c ∈ l := by
  unfold DA.filterCommitRange at h
  exact List.mem_of_mem_take (List.mem_of_mem_drop h)

/-- Subset step: everything `getCommitHistory` returns comes from the
git-side-restricted, limit-truncated history. -/
theorem mem_getCommitHistory_sub (h : List DA.Commit) (lim : Nat) (f : DA.LogFilters)
    (c : DA.Commit) (hmem : c ∈ DA.getCommitHistory h lim f) :
    c ∈ (h.filter f.gitSide).take lim := by
  revert hmem
  unfold DA.getCommitHistory
  cases f.commit <;> cases f.author <;>
    by_cases hr : (f.fromCommit.isSome || f.toCommit.isSome) = true <;>
    simp only [hr, if_true, if_false, Bool.false_eq_true] <;>
    intro hmem <;>
    first
    | exact hmem
    | exact List.mem_of_mem_filter hmem
    | exact List.mem_of_mem_filter (List.mem_of_mem_filter hmem)
    | exact mem_of_mem_filterCommitRange hmem
    | exact List.mem_of_mem_filter (mem_of_mem_filterCommitRange hmem)
    | exact mem_of_mem_filterCommitRange (List.mem_of_mem_filter hmem)
    | exact List.mem_of_mem_filter
        (mem_of_mem_filterCommitRange (List.mem_of_mem_filter hmem))

/-- **C9**.  The commits-unique-to-source computation subtracts only the
hashes of the target's 500 most recent commits from the source's 500 most
recent filter-restricted commits: membership in the result is equivalent
to membership in the truncated filtered source history with a hash
outside the truncated target history (plus the specific-commit filter
when set), and nothing older than the source's 500 most recent can
appear. -/
theorem c9_commits_between (sourceHistory targetHistory : List DA.Commit)
    (f : DA.LogFilters) (c : DA.Commit) :
    (c ∈ DA.getCommitsBetweenBranches sourceHistory targetHistory f →
      c ∈ (sourceHistory.filter f.gitSide).take 500) ∧
    (c ∈ DA.getCommitsBetweenBranches sourceHistory targetHistory f ↔
      (c ∈ DA.getCommitHistory sourceHistory 500 f ∧
       c.hash ∉ (DA.getCommitHistory targetHistory 500 DA.noFilters).map
         (fun t => t.hash) ∧
       ∀ cid, f.commit = some cid →
         (jsStartsWith c.hash cid || jsStartsWith c.abbrevHash cid) = true)) := by
  constructor
  · intro hmem
    apply mem_getCommitHistory_sub sourceHistory 500 f c
    revert hmem
    unfold DA.getCommitsBetweenBranches
    cases f.commit <;> intro hmem <;>
      first
      | exact List.mem_of_mem_filter hmem
      | exact List.mem_of_mem_filter (List.mem_of_mem_filter hmem)
  · unfold DA.getCommitsBetweenBranches
    cases hcm : f.commit with
    | none =>
      simp [List.mem_filter, List.contains, List.elem_iff]
    | some cid =>
      simp only [List.mem_filter]
      constructor
      · rintro ⟨⟨hsrc, hnot⟩, hpre⟩
        refine ⟨hsrc, ?_, ?_⟩
        · simpa [List.contains, List.elem_iff] using hnot
        · intro cid2 hcid2
          cases hcid2
          exact hpre
      · rintro ⟨hsrc, hnot, hpre⟩
        exact ⟨⟨hsrc, by simpa [List.contains, List.elem_iff] using hnot⟩, hpre cid rfl⟩

/-- Two concrete commits for the C9 witness. -/
def commitA : DA.Commit := ⟨"aaaa1111", "aaaa", "alice", "2024-01-02", "feat: a"⟩

/-- Second concrete commit, shared with the target branch. -/
def commitB : DA.Commit := ⟨"bbbb2222", "bbbb", "bob", "2024-01-01", "fix: b"⟩

/-- **C9** witness: on a two-commit source history whose second commit is
shared with the target, the unique-commit list contains the first. -/
theorem c9_witness :
    commitA ∈ DA.getCommitsBetweenBranches [commitA, commitB] [commitB] DA.noFilters :=
  (c9_commits_between [commitA, commitB] [commitB] DA.noFilters commitA).2.mpr
    ⟨by decide, by decide, fun cid hcid => by simp [DA.noFilters] at hcid⟩

set_option maxHeartbeats 8000000 in
/-- **C4** counterexample.  On the unparseable (binary-looking) input the
analyzer does **not** degrade to type `"unknown"` with an empty
structural record: the `assert` bytes match the test-unit content rule
and the structural record counts one line. -/
theorem c4_counterexample :
    ¬ ((FCA.analyzeFileContent "x.bin" binaryContent "unknown").ftype = "unknown" ∧
       (FCA.analyzeFileContent "x.bin" binaryContent "unknown").struct =
         { lines := 0, imports := 0, exports := 0, functions := 0, classes := 0,
           interfaces := 0, comments := 0, emptyLines := 0 }) := by
  decide

end GitAnalyzer
